import Mathlib

/-!
Shallow embedding of the TRIBE API example scripts
(`examples/insights.js`, `examples/events.js`, `examples/knowledge-base.js`,
`examples/ingest-events.js`, plus the batch-events and generate-insight
examples), together with theorems checking the natural-language
specification of the repository against this embedding.

Modelling conventions:
* JSON values are modelled by the inductive `Json` (numbers as `Int`;
  fractional numbers do not occur in any value the scripts construct or
  project).
* `fetch` is modelled by a `world : Request → FetchResult` oracle supplied
  by the environment: it either rejects (transport failure) or resolves to
  an `HttpResponse`.  The response carries its raw body text, the result of
  `JSON.parse` on that text (`none` when parsing throws), and the message
  of the parse error in the failing case.  URL-string validation and
  percent-encoding are runtime behavior external to the scripts;
  `encodeURIComponent`-style encoding is passed in as an opaque `enc`
  function where the source uses `URLSearchParams`.
* `new Date(x).toLocaleDateString()` is locale/timezone dependent, so date
  formatting is passed in as an opaque `fmtDate` function.
* JavaScript member access, truthiness, `||`, ternaries, `?.`, `join`,
  `forEach` and template-literal string conversion are embedded by the
  helpers below, following ECMAScript semantics for the value shapes the
  scripts can encounter (string-to-number coercion in `>` is modelled for
  integer-valued strings).
* Each script function returns a `RunResult` recording the HTTP requests it
  issued, the lines written via `console.log` and `console.error`, and the
  final outcome: the returned value or the thrown error.  The thrown
  error is represented by `CallFailure`, whose constructors are the throw
  sites of the source; `CallFailure.message` is the JS `Error` message the
  source builds at that site.
-/

namespace TribeApi

/-- A JSON value, as produced by `JSON.parse` or built by the scripts. -/
inductive Json where
  | null
  | bool (b : Bool)
  | num (n : Int)
  | str (s : String)
  | arr (elems : List Json)
  | obj (fields : List (String × Json))
deriving Repr

/-- Field lookup in a JSON object literal, first match wins. -/
def lookupField : List (String × Json) → String → Option Json
  | [], _ => none
  | (k, v) :: rest, key => if k = key then some v else lookupField rest key

mutual

/-- Template-literal string conversion of a JSON value (ECMAScript
`ToString`): arrays render as their elements joined by commas, objects as
the tag string. -/
def Json.display : Json → String
  | .null => "null"
  | .bool b => if b then "true" else "false"
  | .num n => toString n
  | .str s => s
  | .arr es => String.intercalate "," (displayList es)
  | .obj _ => "[object Object]"

def displayList : List Json → List String
  | [] => []
  | j :: rest => Json.display j :: displayList rest

end

/-- Template-literal conversion of a possibly-undefined value: JS renders
`undefined` as the string "undefined". -/
def displayOpt : Option Json → String
  | none => "undefined"
  | some j => j.display

/-- ECMAScript truthiness of a possibly-undefined value. -/
def truthy : Option Json → Bool
  | none => false
  | some .null => false
  | some (.bool b) => b
  | some (.num n) => n != 0
  | some (.str s) => s ≠ ""
  | some (.arr _) => true
  | some (.obj _) => true

/-- JS `a || b` on strings (used for `process.env.X || default` and
`argv[2] || default`): an absent value and the empty string are both
falsy. -/
def jsOrEnv (v : Option String) (d : String) : String :=
  match v with
  | none => d
  | some s => if s = "" then d else s

/-- JS `s || d` where `s` is a string value: the empty string is falsy. -/
def jsOrStr (s d : String) : String :=
  if s = "" then d else s

/-- Property read on a non-null, non-undefined JSON value: object field
lookup, with the `length` own property of arrays and strings; anything
else gives `undefined`. -/
def member (j : Json) (k : String) : Option Json :=
  match j with
  | .obj fs => lookupField fs k
  | .arr es => if k = "length" then some (.num es.length) else none
  | .str s => if k = "length" then some (.num s.length) else none
  | _ => none

/-- The error classes and error payloads a script run can end in.  Each
constructor corresponds to one family of throw sites in the source. -/
inductive CallFailure where
  /-- `fetch` rejected before any response arrived (network failure,
  unparseable URL, ...); carries the rejection message. -/
  | netError (msg : String)
  /-- `throw new Error(&#96;API error: ${status} ${statusText}&#96;)` on a
  non-2xx response (insights, events, knowledge-base, batch-events). -/
  | apiStatus (status : Nat) (statusText : String)
  /-- `throw new Error(&#96;API error: ${status} - ${bodyText}&#96;)` on a
  non-2xx response after `await response.text()` (ingest-events,
  generate-insight). -/
  | apiStatusBody (status : Nat) (bodyText : String)
  /-- `await response.json()` rejected: 2xx response body is not valid
  JSON; carries the SyntaxError message. -/
  | badJson (msg : String)
  /-- A TypeError raised while projecting fields out of the parsed value. -/
  | typeError (msg : String)
  /-- An application-level `throw new Error(msg)` such as
  "Event ingestion failed" or "Insight generation failed". -/
  | appFail (msg : String)
deriving Repr, DecidableEq

/-- The `.message` of the JS `Error` object each throw site constructs. -/
def CallFailure.message : CallFailure → String
  | .netError m => m
  | .apiStatus st stx => "API error: " ++ toString st ++ " " ++ stx
  | .apiStatusBody st b => "API error: " ++ toString st ++ " - " ++ b
  | .badJson m => m
  | .typeError m => m
  | .appFail m => m

/-- The `status_code` recorded by a failure, when the failure came from a
non-2xx HTTP response. -/
def CallFailure.statusCode : CallFailure → Option Nat
  | .apiStatus s _ => some s
  | .apiStatusBody s _ => some s
  | _ => none

/-- Modelled from the spec: the error taxonomy of spec sections 4.1/7
(`TransportError` / `ApiError` / `MalformedResponseError`); `other` is
anything the taxonomy does not name. -/
inductive SpecErrorClass where
  | transport
  | api
  | malformed
  | other
deriving Repr, DecidableEq

/-- Modelled from the spec: which taxonomy class a concrete source-level
failure falls into. -/
def specClass : CallFailure → SpecErrorClass
  | .netError _ => .transport
  | .apiStatus _ _ => .api
  | .apiStatusBody _ _ => .api
  | .badJson _ => .malformed
  | .typeError _ => .other
  | .appFail _ => .other

/-- Member access on a possibly-undefined / possibly-null base value:
`undefined.k` and `null.k` throw a TypeError, everything else reads the
property as in `member`. -/
def getMember (v : Option Json) (k : String) : Except CallFailure (Option Json) :=
  match v with
  | none => .error (.typeError ("Cannot read properties of undefined (reading " ++ k ++ ")"))
  | some .null => .error (.typeError ("Cannot read properties of null (reading " ++ k ++ ")"))
  | some j => .ok (member j k)

/-- Element conversion inside `Array.prototype.join`: `null` (and holes)
render as the empty string, other elements via `ToString`. -/
def joinElem : Json → String
  | .null => ""
  | j => j.display

/-- `Array.prototype.join` with a separator. -/
def joinJs (es : List Json) (sep : String) : String :=
  String.intercalate sep (es.map joinElem)

/-- JS `v > k` for an integer bound `k`: numeric coercion of numbers,
booleans, `null` and integer-valued strings; `undefined` and
non-numeric values compare as `NaN` (false). -/
def jsGtNum (v : Option Json) (k : Int) : Bool :=
  match v with
  | some (.num n) => k < n
  | some (.bool b) => k < (if b then (1 : Int) else 0)
  | some .null => k < 0
  | some (.str s) =>
    match s.trim.toInt? with
    | some n => k < n
    | none => if s.trim = "" then k < 0 else false
  | some (.arr _) => false
  | some (.obj _) => false
  | none => false

/-- An HTTP response as observed by the scripts: status line data, the raw
body text, the result of `JSON.parse` on the body (`none` when the body is
not valid JSON), and the SyntaxError message for that failing case. -/
structure HttpResponse where
  status : Nat
  statusText : String
  bodyText : String
  bodyJson : Option Json
  jsonErrMsg : String
deriving Repr

/-- `response.ok`: status in the inclusive range [200, 299]. -/
def HttpResponse.isOk (r : HttpResponse) : Bool :=
  decide (200 ≤ r.status ∧ r.status ≤ 299)

/-- The outcome of one `fetch`: rejection with a message, or a response. -/
inductive FetchResult where
  | netErr (msg : String)
  | got (r : HttpResponse)
deriving Repr

/-- An HTTP request as built by the scripts.  `body` is the JS value passed
to `JSON.stringify` (no body for GET). -/
structure Request where
  url : String
  method : String
  headers : List (String × String)
  body : Option Json
deriving Repr

/-- The shared response-handling stage of insights, events, knowledge-base
and batch-events: non-2xx throws `API error: status statusText` without
touching the body; on 2xx the body is parsed as JSON. -/
def callA (fr : FetchResult) : Except CallFailure Json :=
  match fr with
  | .netErr m => .error (.netError m)
  | .got r =>
    if r.isOk then
      match r.bodyJson with
      | some j => .ok j
      | none => .error (.badJson r.jsonErrMsg)
    else .error (.apiStatus r.status r.statusText)

/-- The shared response-handling stage of ingest-events and
generate-insight: non-2xx reads the body as text and throws
`API error: status - bodyText`; on 2xx the body is parsed as JSON. -/
def callB (fr : FetchResult) : Except CallFailure Json :=
  match fr with
  | .netErr m => .error (.netError m)
  | .got r =>
    if r.isOk then
      match r.bodyJson with
      | some j => .ok j
      | none => .error (.badJson r.jsonErrMsg)
    else .error (.apiStatusBody r.status r.bodyText)

/-- Result of running one script function: the HTTP requests it issued,
its `console.log` lines, its `console.error` lines, and the returned value
or thrown error. -/
structure RunResult where
  requests : List Request
  stdout : List String
  stderr : List String
  result : Except CallFailure Json
deriving Repr

/-- The catch-block of every script: `console.error(label, error.message)`
writes one line joining its arguments with a space, then rethrows. -/
def failRun (req : Request) (label : String) (outs : List String) (e : CallFailure) : RunResult :=
  ⟨[req], outs, [label ++ " " ++ e.message], .error e⟩

/-- Result of running a script as a main module: the process exit code and
the output streams. -/
structure ProcResult where
  exitCode : Nat
  stdout : List String
  stderr : List String
deriving Repr, DecidableEq

/-- Environment variables read by the scripts. -/
structure Env where
  TRIBE_API_KEY : Option String
  TRIBE_API_BASE : Option String

/-- `forEach` body results folded in order: printed lines accumulate, the
first thrown error aborts the iteration. -/
def goForEach (f : Nat → Json → List String × Option CallFailure) (i : Nat) :
    List Json → List String × Option CallFailure
  | [] => ([], none)
  | e :: rest =>
    match f i e with
    | (outs, some err) => (outs, some err)
    | (outs, none) =>
      match goForEach f (i + 1) rest with
      | (outs2, r) => (outs ++ outs2, r)

/-- `v.forEach(cb)` on a possibly-undefined value: TypeError unless `v` is
an array. -/
def forEachIdx (v : Option Json) (f : Nat → Json → List String × Option CallFailure) :
    List String × Option CallFailure :=
  match v with
  | none => ([], some (.typeError "Cannot read properties of undefined (reading forEach)"))
  | some .null => ([], some (.typeError "Cannot read properties of null (reading forEach)"))
  | some (.arr es) => goForEach f 0 es
  | some _ => ([], some (.typeError "forEach is not a function"))

/-! ### examples/insights.js -/

namespace Insights

def API_KEY (env : Env) : String := jsOrEnv env.TRIBE_API_KEY "your_api_key_here"

def API_BASE (env : Env) : String := jsOrEnv env.TRIBE_API_BASE "https://tribecode.ai/api"

/-- The single GET request `getInsights` issues. -/
def request (env : Env) : Request :=
  { url := API_BASE env ++ "/analytics/insights"
    method := "GET"
    headers := [("Authorization", "Bearer " ++ API_KEY env),
                ("Content-Type", "application/json")]
    body := none }

/-- The `forEach` body over `data.insights`, `insights.js` lines 25-30. -/
def renderInsightItem (fmtDate : Option Json → String) (idx : Nat) (insight : Json) :
    List String × Option CallFailure :=
  match getMember (some insight) "title" with
  | .error e => ([], some e)
  | .ok title =>
    ([toString (idx + 1) ++ ". " ++ displayOpt title,
      "   Category: " ++ displayOpt (member insight "category")
        ++ " | Priority: " ++ displayOpt (member insight "priority"),
      "   " ++ displayOpt (member insight "description"),
      "   Created: " ++ fmtDate (member insight "created_at") ++ "\n"], none)

/-- The success-path printing of `getInsights`, `insights.js` lines 21-30. -/
def renderInsights (data : Json) (fmtDate : Option Json → String) :
    List String × Option CallFailure :=
  let l1 := "📊 TRIBE Analytics Insights\n"
  match getMember (some data) "insights" with
  | .error e => ([l1], some e)
  | .ok insights =>
  match getMember insights "length" with
  | .error e => ([l1], some e)
  | .ok len =>
  let l2 := "Total insights: " ++ displayOpt len
  let l3 := "Unread: " ++ displayOpt (member data "unreadCount") ++ "\n"
  match forEachIdx insights (renderInsightItem fmtDate) with
  | (outs, r) => ([l1, l2, l3] ++ outs, r)

/-- `getInsights` from `examples/insights.js`. -/
def getInsights (env : Env) (world : Request → FetchResult)
    (fmtDate : Option Json → String) : RunResult :=
  let req := request env
  match callA (world req) with
  | .error e => failRun req "❌ Error fetching insights:" [] e
  | .ok data =>
    match renderInsights data fmtDate with
    | (outs, some e) => failRun req "❌ Error fetching insights:" outs e
    | (outs, none) => ⟨[req], outs, [], .ok data⟩

/-- The `require.main === module` block of `insights.js`. -/
def runMain (env : Env) (world : Request → FetchResult)
    (fmtDate : Option Json → String) : ProcResult :=
  let r := getInsights env world fmtDate
  match r.result with
  | .ok _ => ⟨0, r.stdout ++ ["✅ Done"], r.stderr⟩
  | .error _ => ⟨1, r.stdout, r.stderr⟩

end Insights

/-! ### examples/events.js (trackEvent) -/

namespace Events

def API_KEY (env : Env) : String := jsOrEnv env.TRIBE_API_KEY "your_api_key_here"

def API_BASE (env : Env) : String := jsOrEnv env.TRIBE_API_BASE "https://tribecode.ai/api"

/-- The POST body `trackEvent` serializes; `nowIso` models
`new Date().toISOString()`. -/
def requestBody (nowIso : String) : Json :=
  .obj [("event_name", .str "api_example_event"),
        ("event_data", .obj [("action", .str "test_event"),
                             ("timestamp", .str nowIso)]),
        ("metadata", .obj [("source", .str "tribe-api-example"),
                           ("version", .str "1.0.0")])]

/-- The single POST request `trackEvent` issues. -/
def request (env : Env) (nowIso : String) : Request :=
  { url := API_BASE env ++ "/analytics/events"
    method := "POST"
    headers := [("Authorization", "Bearer " ++ API_KEY env),
                ("Content-Type", "application/json")]
    body := some (requestBody nowIso) }

/-- The success-path printing of `trackEvent`, `events.js` lines 31-33. -/
def renderTrackEvent (data : Json) : List String × Option CallFailure :=
  let l1 := "📡 Event Tracked Successfully\n"
  match getMember (some data) "event_id" with
  | .error e => ([l1], some e)
  | .ok eid =>
    ([l1, "Event ID: " ++ displayOpt eid,
      "Status: " ++ (if truthy (member data "success") then "Success" else "Failed") ++ "\n"],
     none)

/-- `trackEvent` from `examples/events.js`. -/
def trackEvent (env : Env) (world : Request → FetchResult) (nowIso : String) : RunResult :=
  let req := request env nowIso
  match callA (world req) with
  | .error e => failRun req "❌ Error tracking event:" [] e
  | .ok data =>
    match renderTrackEvent data with
    | (outs, some e) => failRun req "❌ Error tracking event:" outs e
    | (outs, none) => ⟨[req], outs, [], .ok data⟩

/-- The `require.main === module` block of `events.js`. -/
def runMain (env : Env) (world : Request → FetchResult) (nowIso : String) : ProcResult :=
  let r := trackEvent env world nowIso
  match r.result with
  | .ok _ => ⟨0, r.stdout ++ ["✅ Done"], r.stderr⟩
  | .error _ => ⟨1, r.stdout, r.stderr⟩

end Events

/-! ### examples/knowledge-base.js -/

namespace KnowledgeBase

def API_KEY (env : Env) : String := jsOrEnv env.TRIBE_API_KEY "your_api_key_here"

def API_BASE (env : Env) : String := jsOrEnv env.TRIBE_API_BASE "https://tribecode.ai/api"

/-- The single GET request `searchKnowledgeBase` issues; `enc` models the
`URLSearchParams` percent-encoding applied to the query value. -/
def request (env : Env) (enc : String → String) (query : String) : Request :=
  { url := API_BASE env ++ "/knowledge-base/articles?search=" ++ enc query ++ "&limit=5"
    method := "GET"
    headers := [("Authorization", "Bearer " ++ API_KEY env),
                ("Content-Type", "application/json")]
    body := none }

/-- Embeds `article.tags?.join(", ") || "none"`: absent or null tags give
"none" via optional chaining; an array joins (a join producing the empty
string is falsy and also gives "none"); any other value has no `join`
method and throws. -/
def tagsJoin : Option Json → Except CallFailure String
  | none => .ok "none"
  | some .null => .ok "none"
  | some (.arr es) => .ok (jsOrStr (joinJs es ", ") "none")
  | some _ => .error (.typeError "article.tags.join is not a function")

/-- The `forEach` body over `data.articles`, `knowledge-base.js` lines 27-32. -/
def renderArticle (fmtDate : Option Json → String) (idx : Nat) (article : Json) :
    List String × Option CallFailure :=
  match getMember (some article) "title" with
  | .error e => ([], some e)
  | .ok title =>
  let a := toString (idx + 1) ++ ". " ++ displayOpt title
  let b := "   Topic: " ++ displayOpt (member article "topic")
  match tagsJoin (member article "tags") with
  | .error e => ([a, b], some e)
  | .ok tagsStr =>
    ([a, b, "   Tags: " ++ tagsStr,
      "   Updated: " ++ fmtDate (member article "updated_at") ++ "\n"], none)

/-- The success-path printing of `searchKnowledgeBase`, lines 23-32. -/
def renderSearch (query : String) (data : Json) (fmtDate : Option Json → String) :
    List String × Option CallFailure :=
  let l1 := "📚 Knowledge Base Search Results for: \"" ++ query ++ "\"\n"
  match getMember (some data) "total" with
  | .error e => ([l1], some e)
  | .ok tot =>
  let l2 := "Total results: " ++ displayOpt tot
  let articles := member data "articles"
  match getMember articles "length" with
  | .error e => ([l1, l2], some e)
  | .ok alen =>
  let l3 := "Showing: " ++ displayOpt alen ++ " articles\n"
  match forEachIdx articles (renderArticle fmtDate) with
  | (outs, r) => ([l1, l2, l3] ++ outs, r)

/-- `searchKnowledgeBase` from `examples/knowledge-base.js`. -/
def searchKnowledgeBase (env : Env) (world : Request → FetchResult)
    (fmtDate : Option Json → String) (enc : String → String) (query : String) : RunResult :=
  let req := request env enc query
  match callA (world req) with
  | .error e => failRun req "❌ Error searching knowledge base:" [] e
  | .ok data =>
    match renderSearch query data fmtDate with
    | (outs, some e) => failRun req "❌ Error searching knowledge base:" outs e
    | (outs, none) => ⟨[req], outs, [], .ok data⟩

/-- The `require.main === module` block of `knowledge-base.js`:
`process.argv[2] || "oauth"` picks the query. -/
def runMain (env : Env) (world : Request → FetchResult)
    (fmtDate : Option Json → String) (enc : String → String)
    (argv2 : Option String) : ProcResult :=
  let query := jsOrEnv argv2 "oauth"
  let r := searchKnowledgeBase env world fmtDate enc query
  match r.result with
  | .ok _ => ⟨0, r.stdout ++ ["✅ Done"], r.stderr⟩
  | .error _ => ⟨1, r.stdout, r.stderr⟩

end KnowledgeBase

/-! ### the batch-events example (trackBatchEvents) -/

namespace BatchEvents

def API_KEY (env : Env) : String := jsOrEnv env.TRIBE_API_KEY "your_api_key_here"

def API_BASE (env : Env) : String := jsOrEnv env.TRIBE_API_BASE "https://tribecode.ai/api"

/-- The three fixed events the script builds; `t0 t1 t2` model the three
`toISOString()` timestamps. -/
def events (t0 t1 t2 : String) : List Json :=
  [.obj [("event_name", .str "page_view"),
         ("event_data", .obj [("page", .str "/dashboard"),
                              ("user_agent", .str "API-Example")]),
         ("timestamp", .str t0)],
   .obj [("event_name", .str "button_click"),
         ("event_data", .obj [("button_id", .str "create_project"),
                              ("location", .str "header")]),
         ("timestamp", .str t1)],
   .obj [("event_name", .str "api_call"),
         ("event_data", .obj [("endpoint", .str "/api/projects"),
                              ("method", .str "POST"),
                              ("duration_ms", .num 234)]),
         ("timestamp", .str t2)]]

/-- The single POST request `trackBatchEvents` issues. -/
def request (env : Env) (t0 t1 t2 : String) : Request :=
  { url := API_BASE env ++ "/analytics/events/batch"
    method := "POST"
    headers := [("Authorization", "Bearer " ++ API_KEY env),
                ("Content-Type", "application/json")]
    body := some (.obj [("events", .arr (events t0 t1 t2))]) }

/-- The success-path printing of `trackBatchEvents`. -/
def renderBatch (t0 t1 t2 : String) (data : Json) : List String × Option CallFailure :=
  let l1 := "📊 Batch Events Tracked\n"
  let l2 := "Total events sent: " ++ toString (events t0 t1 t2).length
  match getMember (some data) "processed" with
  | .error e => ([l1, l2], some e)
  | .ok processed =>
  let l3 := "Successfully processed: " ++ displayOpt processed
  let l4 := "Failed: " ++ displayOpt (member data "failed") ++ "\n"
  let l5 := if truthy (member data "success")
            then "✅ All events tracked successfully"
            else "⚠️  Some events failed to track"
  ([l1, l2, l3, l4, l5], none)

/-- `trackBatchEvents` from the batch-events example. -/
def trackBatchEvents (env : Env) (world : Request → FetchResult)
    (t0 t1 t2 : String) : RunResult :=
  let req := request env t0 t1 t2
  match callA (world req) with
  | .error e => failRun req "❌ Error tracking batch events:" [] e
  | .ok data =>
    match renderBatch t0 t1 t2 data with
    | (outs, some e) => failRun req "❌ Error tracking batch events:" outs e
    | (outs, none) => ⟨[req], outs, [], .ok data⟩

/-- The `require.main === module` block of the batch-events example. -/
def runMain (env : Env) (world : Request → FetchResult) (t0 t1 t2 : String) : ProcResult :=
  let r := trackBatchEvents env world t0 t1 t2
  match r.result with
  | .ok _ => ⟨0, r.stdout ++ ["\n✅ Done"], r.stderr⟩
  | .error _ => ⟨1, r.stdout, r.stderr⟩

end BatchEvents

/-! ### examples/ingest-events.js -/

namespace IngestEvents

def API_KEY (env : Env) : String := jsOrEnv env.TRIBE_API_KEY "your_api_key_here"

def API_BASE (env : Env) : String := jsOrEnv env.TRIBE_API_BASE "http://localhost:8080"

/-- The single POST request `ingestEvents` issues for a given events
array. -/
def request (env : Env) (events : List Json) : Request :=
  { url := API_BASE env ++ "/api/telemetry/ingest"
    method := "POST"
    headers := [("Authorization", "Bearer " ++ API_KEY env),
                ("Content-Type", "application/json")]
    body := some (.obj [("events", .arr events)]) }

/-- The success-path printing of `ingestEvents`, lines 28-30; reached only
after the `data.success` check, so `data` is a non-null value here.
`data.events_processed || events.length` prints the field when truthy and
falls back to the length of the argument array. -/
def renderIngest (events : List Json) (data : Json) : List String :=
  let ep := member data "events_processed"
  ["✅ Events ingested successfully\n",
   "Events processed: " ++ (if truthy ep then displayOpt ep else toString events.length),
   "User ID: " ++ displayOpt (member data "user_id")]

/-- `ingestEvents` from `examples/ingest-events.js`: after a successful
round-trip and parse, `if (!data.success) throw new Error(...)`. -/
def ingestEvents (env : Env) (world : Request → FetchResult) (events : List Json) : RunResult :=
  let req := request env events
  match callB (world req) with
  | .error e => failRun req "❌ Error ingesting events:" [] e
  | .ok data =>
    match getMember (some data) "success" with
    | .error e => failRun req "❌ Error ingesting events:" [] e
    | .ok succ =>
      if truthy succ then
        ⟨[req], renderIngest events data, [], .ok data⟩
      else
        failRun req "❌ Error ingesting events:" [] (.appFail "Event ingestion failed")

/-- The fixed three-event batch of `ingestBatchEvents` (lines 58-85). -/
def batchEventsList : List Json :=
  [.obj [("event_type", .str "user"),
         ("tool", .str "claude_code"),
         ("project_path", .str "/Users/username/my-project"),
         ("message_text", .str "Added user authentication")],
   .obj [("event_type", .str "assistant"),
         ("tool", .str "claude_code"),
         ("project_path", .str "/Users/username/my-project"),
         ("message_text", .str "Created login component"),
         ("data", .obj [("component", .str "LoginForm.tsx"),
                        ("framework", .str "React")])],
   .obj [("event_type", .str "summary"),
         ("tool", .str "claude_code"),
         ("project_path", .str "/Users/username/my-project"),
         ("message_text", .str "Completed authentication feature"),
         ("data", .obj [("feature", .str "authentication"),
                        ("status", .str "completed")])]]

/-- The `require.main === module` block of `ingest-events.js`: prints a
banner, then runs `ingestBatchEvents()`. -/
def runMain (env : Env) (world : Request → FetchResult) : ProcResult :=
  let pre := ["🚀 TRIBE Telemetry Event Ingestion Example\n"]
  let r := ingestEvents env world batchEventsList
  match r.result with
  | .ok _ => ⟨0, pre ++ r.stdout ++ ["\n✅ Done"], r.stderr⟩
  | .error _ => ⟨1, pre ++ r.stdout, r.stderr⟩

end IngestEvents

/-! ### the generate-insight example (generateInsight) -/

namespace GenerateInsight

def API_KEY (env : Env) : String := jsOrEnv env.TRIBE_API_KEY "your_api_key_here"

def API_BASE (env : Env) : String := jsOrEnv env.TRIBE_API_BASE "http://localhost:8080"

/-- Destructuring with defaults: an omitted option falls back to its
default (callers pass strings or omit the field). -/
def resolveOpt (v : Option String) (d : String) : String := v.getD d

/-- The single POST request `generateInsight` issues. -/
def request (env : Env) (insightType timePeriod focusArea : Option String) : Request :=
  { url := API_BASE env ++ "/api/insights/generate"
    method := "POST"
    headers := [("Authorization", "Bearer " ++ API_KEY env),
                ("Content-Type", "application/json")]
    body := some (.obj [("insight_type", .str (resolveOpt insightType "usage_analysis")),
                        ("time_period", .str (resolveOpt timePeriod "7d")),
                        ("metadata", .obj [("focus_area", .str (resolveOpt focusArea "productivity"))])]) }

/-- The `forEach` body over the first five event scores. -/
def renderScore (_idx : Nat) (score : Json) : List String × Option CallFailure :=
  match getMember (some score) "event_id" with
  | .error e => ([], some e)
  | .ok eid =>
    (["   Event " ++ displayOpt eid ++ ": relevance "
        ++ displayOpt (member score "relevance") ++ "/10"], none)

/-- The `event_scores` block (guarded by
`data.insight.event_scores && data.insight.event_scores.length > 0`);
`ins` is the non-null `data.insight` value.  When the guard passes on a
non-array value, `.slice`/`.forEach` is not a function and a TypeError is
thrown. -/
def renderScores (ins : Json) : List String × Option CallFailure :=
  let scores := member ins "event_scores"
  let lenVal := match scores with
                | some j => member j "length"
                | none => none
  if truthy scores && jsGtNum lenVal 0 then
    let h1 := "🎯 Event Scores (" ++ displayOpt lenVal ++ " events):"
    match scores with
    | some (.arr es) =>
      (match goForEach renderScore 0 (es.take 5) with
       | (outs, some e) => ([h1] ++ outs, some e)
       | (outs, none) =>
         let more := if jsGtNum lenVal 5
                     then ["   ... and " ++ toString ((es.length : Int) - 5) ++ " more"]
                     else []
         ([h1] ++ outs ++ more, none))
    | some _ => ([h1], some (.typeError "data.insight.event_scores.slice is not a function"))
    | none => ([h1], none)
  else
    ([], none)

/-- The success-path printing of `generateInsight` (after the
`data.success` check): projects `data.insight`, throwing a TypeError when
it is absent or null. -/
def renderGenerate (data : Json) : List String × Option CallFailure :=
  let l1 := "🤖 AI-Powered Insight Generated\n"
  match getMember (some data) "insight" with
  | .error e => ([l1], some e)
  | .ok insOpt =>
  match insOpt with
  | none => ([l1], some (.typeError "Cannot read properties of undefined (reading title)"))
  | some .null => ([l1], some (.typeError "Cannot read properties of null (reading title)"))
  | some ins =>
    let head := [l1,
      "Title: " ++ displayOpt (member ins "title"),
      "Provider: " ++ displayOpt (member ins "provider"),
      "Description: " ++ displayOpt (member ins "description") ++ "\n",
      "📊 Analysis:",
      "   " ++ displayOpt (member ins "value") ++ "\n",
      "💡 Recommendation:",
      "   " ++ displayOpt (member ins "recommendation") ++ "\n"]
    match renderScores ins with
    | (outs, r) => (head ++ outs, r)

/-- `generateInsight` from the generate-insight example: after a
successful round-trip and parse, `if (!data.success) throw new Error(...)`. -/
def generateInsight (env : Env) (world : Request → FetchResult)
    (insightType timePeriod focusArea : Option String) : RunResult :=
  let req := request env insightType timePeriod focusArea
  match callB (world req) with
  | .error e => failRun req "❌ Error generating insight:" [] e
  | .ok data =>
    match getMember (some data) "success" with
    | .error e => failRun req "❌ Error generating insight:" [] e
    | .ok succ =>
      if truthy succ then
        match renderGenerate data with
        | (outs, some e) => failRun req "❌ Error generating insight:" outs e
        | (outs, none) => ⟨[req], outs, [], .ok data⟩
      else
        failRun req "❌ Error generating insight:" [] (.appFail "Insight generation failed")

/-- The `require.main === module` block of the generate-insight example. -/
def runMain (env : Env) (world : Request → FetchResult) : ProcResult :=
  let r := generateInsight env world
    (some "usage_analysis") (some "7d") (some "code_quality")
  match r.result with
  | .ok _ => ⟨0, r.stdout ++ ["\n✅ Done"], r.stderr⟩
  | .error _ => ⟨1, r.stdout, r.stderr⟩

end GenerateInsight

/-- Substring containment, as a proposition: `pat` occurs inside `s`. -/
def containsStr (s pat : String) : Prop := ∃ a b, s = a ++ pat ++ b

/-- Whether `p` is a prefix of the character list `l`. -/
def charsHavePre : List Char → List Char → Bool
  | _, [] => true
  | [], _ :: _ => false
  | c :: cs, p :: ps => c == p && charsHavePre cs ps

/-- Whether the character list `p` occurs inside `l`. -/
def charsContain : List Char → List Char → Bool
  | [], p => p.isEmpty
  | c :: cs, p => charsHavePre (c :: cs) p || charsContain cs p

/-- Substring containment, executable form (for concrete refutations). -/
def containsStrB (s pat : String) : Bool := charsContain s.data pat.data

/-! ## Helper lemmas shared by the claim theorems -/

theorem containsStr_appendR (a pat : String) : containsStr (a ++ pat) pat :=
  ⟨a, "", by rw [String.append_empty]⟩

theorem containsStr_of_eq (s a pat b : String) (h : s = a ++ pat ++ b) :
    containsStr s pat := ⟨a, b, h⟩

theorem Insights.getInsights_requests (env : Env) (w : Request → FetchResult)
    (fmt : Option Json → String) :
    (getInsights env w fmt).requests = [request env] := by
  unfold getInsights
  dsimp only []
  split
  · rfl
  · split <;> rfl

theorem Events.trackEvent_requests (env : Env) (w : Request → FetchResult) (nowIso : String) :
    (trackEvent env w nowIso).requests = [request env nowIso] := by
  unfold trackEvent
  dsimp only []
  split
  · rfl
  · split <;> rfl

theorem KnowledgeBase.searchKnowledgeBase_requests (env : Env) (w : Request → FetchResult)
    (fmt : Option Json → String) (enc : String → String) (query : String) :
    (searchKnowledgeBase env w fmt enc query).requests = [request env enc query] := by
  unfold searchKnowledgeBase
  dsimp only []
  split
  · rfl
  · split <;> rfl

theorem BatchEvents.trackBatchEvents_requests (env : Env) (w : Request → FetchResult)
    (t0 t1 t2 : String) :
    (trackBatchEvents env w t0 t1 t2).requests = [request env t0 t1 t2] := by
  unfold trackBatchEvents
  dsimp only []
  split
  · rfl
  · split <;> rfl

theorem IngestEvents.ingestEvents_requests (env : Env) (w : Request → FetchResult)
    (events : List Json) :
    (ingestEvents env w events).requests = [request env events] := by
  unfold ingestEvents
  dsimp only []
  split
  · rfl
  · split
    · rfl
    · split <;> rfl

theorem GenerateInsight.generateInsight_requests (env : Env) (w : Request → FetchResult)
    (iT tP fA : Option String) :
    (generateInsight env w iT tP fA).requests = [request env iT tP fA] := by
  unfold generateInsight
  dsimp only []
  split
  · rfl
  · split
    · rfl
    · split
      · split <;> rfl
      · rfl

theorem Insights.renderInsights_head (data : Json) (fmt : Option Json → String) :
    ((renderInsights data fmt).1).head? = some "📊 TRIBE Analytics Insights\n" := by
  unfold renderInsights
  dsimp only []
  split
  · rfl
  · split <;> rfl

theorem Events.renderTrackEvent_head (data : Json) :
    ((renderTrackEvent data).1).head? = some "📡 Event Tracked Successfully\n" := by
  unfold renderTrackEvent
  dsimp only []
  split <;> rfl

theorem KnowledgeBase.renderSearch_head (query : String) (data : Json)
    (fmt : Option Json → String) :
    ((renderSearch query data fmt).1).head?
      = some ("📚 Knowledge Base Search Results for: \"" ++ query ++ "\"\n") := by
  unfold renderSearch
  dsimp only []
  split
  · rfl
  · split <;> rfl

theorem BatchEvents.renderBatch_head (t0 t1 t2 : String) (data : Json) :
    ((renderBatch t0 t1 t2 data).1).head? = some "📊 Batch Events Tracked\n" := by
  unfold renderBatch
  dsimp only []
  split <;> rfl

theorem GenerateInsight.renderGenerate_head (data : Json) :
    ((renderGenerate data).1).head? = some "🤖 AI-Powered Insight Generated\n" := by
  unfold renderGenerate
  dsimp only []
  split
  · rfl
  · split
    · rfl
    · rfl
    · rfl

/-- Case shape of a `getInsights` run: either it threw, and the catch
block printed the labelled message to stderr, or it returned, printed no
stderr line, and its first stdout line is the header. -/
theorem Insights.getInsights_shape (env : Env) (w : Request → FetchResult)
    (fmt : Option Json → String) :
    (∃ e, (getInsights env w fmt).result = .error e ∧
        (getInsights env w fmt).stderr = ["❌ Error fetching insights:" ++ " " ++ e.message]) ∨
    (∃ v, (getInsights env w fmt).result = .ok v ∧ (getInsights env w fmt).stderr = [] ∧
        ((getInsights env w fmt).stdout).head? = some "📊 TRIBE Analytics Insights\n") := by
  unfold getInsights
  dsimp only []
  split
  · exact Or.inl ⟨_, rfl, rfl⟩
  · rename_i data _
    split
    · exact Or.inl ⟨_, rfl, rfl⟩
    · rename_i outs heq
      refine Or.inr ⟨_, rfl, rfl, ?_⟩
      have hh := renderInsights_head data fmt
      rw [heq] at hh
      exact hh

/-- Case shape of a `trackEvent` run. -/
theorem Events.trackEvent_shape (env : Env) (w : Request → FetchResult) (nowIso : String) :
    (∃ e, (trackEvent env w nowIso).result = .error e ∧
        (trackEvent env w nowIso).stderr = ["❌ Error tracking event:" ++ " " ++ e.message]) ∨
    (∃ v, (trackEvent env w nowIso).result = .ok v ∧ (trackEvent env w nowIso).stderr = [] ∧
        ((trackEvent env w nowIso).stdout).head? = some "📡 Event Tracked Successfully\n") := by
  unfold trackEvent
  dsimp only []
  split
  · exact Or.inl ⟨_, rfl, rfl⟩
  · rename_i data _
    split
    · exact Or.inl ⟨_, rfl, rfl⟩
    · rename_i outs heq
      refine Or.inr ⟨_, rfl, rfl, ?_⟩
      have hh := renderTrackEvent_head data
      rw [heq] at hh
      exact hh

/-- Case shape of a `searchKnowledgeBase` run. -/
theorem KnowledgeBase.searchKnowledgeBase_shape (env : Env) (w : Request → FetchResult)
    (fmt : Option Json → String) (enc : String → String) (query : String) :
    (∃ e, (searchKnowledgeBase env w fmt enc query).result = .error e ∧
        (searchKnowledgeBase env w fmt enc query).stderr
          = ["❌ Error searching knowledge base:" ++ " " ++ e.message]) ∨
    (∃ v, (searchKnowledgeBase env w fmt enc query).result = .ok v ∧
        (searchKnowledgeBase env w fmt enc query).stderr = [] ∧
        ((searchKnowledgeBase env w fmt enc query).stdout).head?
          = some ("📚 Knowledge Base Search Results for: \"" ++ query ++ "\"\n")) := by
  unfold searchKnowledgeBase
  dsimp only []
  split
  · exact Or.inl ⟨_, rfl, rfl⟩
  · rename_i data _
    split
    · exact Or.inl ⟨_, rfl, rfl⟩
    · rename_i outs heq
      refine Or.inr ⟨_, rfl, rfl, ?_⟩
      have hh := renderSearch_head query data fmt
      rw [heq] at hh
      exact hh

/-- Case shape of a `trackBatchEvents` run. -/
theorem BatchEvents.trackBatchEvents_shape (env : Env) (w : Request → FetchResult)
    (t0 t1 t2 : String) :
    (∃ e, (trackBatchEvents env w t0 t1 t2).result = .error e ∧
        (trackBatchEvents env w t0 t1 t2).stderr
          = ["❌ Error tracking batch events:" ++ " " ++ e.message]) ∨
    (∃ v, (trackBatchEvents env w t0 t1 t2).result = .ok v ∧
        (trackBatchEvents env w t0 t1 t2).stderr = [] ∧
        ((trackBatchEvents env w t0 t1 t2).stdout).head? = some "📊 Batch Events Tracked\n") := by
  unfold trackBatchEvents
  dsimp only []
  split
  · exact Or.inl ⟨_, rfl, rfl⟩
  · rename_i data _
    split
    · exact Or.inl ⟨_, rfl, rfl⟩
    · rename_i outs heq
      refine Or.inr ⟨_, rfl, rfl, ?_⟩
      have hh := renderBatch_head t0 t1 t2 data
      rw [heq] at hh
      exact hh

/-- Case shape of an `ingestEvents` run. -/
theorem IngestEvents.ingestEvents_shape (env : Env) (w : Request → FetchResult)
    (events : List Json) :
    (∃ e, (ingestEvents env w events).result = .error e ∧
        (ingestEvents env w events).stderr = ["❌ Error ingesting events:" ++ " " ++ e.message]) ∨
    (∃ v, (ingestEvents env w events).result = .ok v ∧
        (ingestEvents env w events).stderr = [] ∧
        ((ingestEvents env w events).stdout).head? = some "✅ Events ingested successfully\n") := by
  unfold ingestEvents
  dsimp only []
  split
  · exact Or.inl ⟨_, rfl, rfl⟩
  · split
    · exact Or.inl ⟨_, rfl, rfl⟩
    · split
      · exact Or.inr ⟨_, rfl, rfl, rfl⟩
      · exact Or.inl ⟨_, rfl, rfl⟩

/-- Case shape of a `generateInsight` run. -/
theorem GenerateInsight.generateInsight_shape (env : Env) (w : Request → FetchResult)
    (iT tP fA : Option String) :
    (∃ e, (generateInsight env w iT tP fA).result = .error e ∧
        (generateInsight env w iT tP fA).stderr
          = ["❌ Error generating insight:" ++ " " ++ e.message]) ∨
    (∃ v, (generateInsight env w iT tP fA).result = .ok v ∧
        (generateInsight env w iT tP fA).stderr = [] ∧
        ((generateInsight env w iT tP fA).stdout).head?
          = some "🤖 AI-Powered Insight Generated\n") := by
  unfold generateInsight
  dsimp only []
  split
  · exact Or.inl ⟨_, rfl, rfl⟩
  · rename_i data _
    split
    · exact Or.inl ⟨_, rfl, rfl⟩
    · split
      · split
        · exact Or.inl ⟨_, rfl, rfl⟩
        · rename_i outs heq
          refine Or.inr ⟨_, rfl, rfl, ?_⟩
          have hh := renderGenerate_head data
          rw [heq] at hh
          exact hh
      · exact Or.inl ⟨_, rfl, rfl⟩

theorem callA_of_notOk (r : HttpResponse) (h : r.isOk = false) :
    callA (.got r) = .error (.apiStatus r.status r.statusText) := by
  simp [callA, h]

theorem callB_of_notOk (r : HttpResponse) (h : r.isOk = false) :
    callB (.got r) = .error (.apiStatusBody r.status r.bodyText) := by
  simp [callB, h]

theorem callA_of_ok_some (r : HttpResponse) (j : Json) (hok : r.isOk = true)
    (hj : r.bodyJson = some j) : callA (.got r) = .ok j := by
  simp [callA, hok, hj]

theorem callB_of_ok_some (r : HttpResponse) (j : Json) (hok : r.isOk = true)
    (hj : r.bodyJson = some j) : callB (.got r) = .ok j := by
  simp [callB, hok, hj]

theorem callA_of_ok_none (r : HttpResponse) (hok : r.isOk = true)
    (hj : r.bodyJson = none) : callA (.got r) = .error (.badJson r.jsonErrMsg) := by
  simp [callA, hok, hj]

theorem callB_of_ok_none (r : HttpResponse) (hok : r.isOk = true)
    (hj : r.bodyJson = none) : callB (.got r) = .error (.badJson r.jsonErrMsg) := by
  simp [callB, hok, hj]

theorem notOk_of_status_401 (r : HttpResponse) (h : r.status = 401) : r.isOk = false := by
  simp [HttpResponse.isOk, h]

theorem getMember_of_ne_null (j : Json) (k : String) (h : j ≠ .null) :
    getMember (some j) k = .ok (member j k) := by
  cases j
  · exact absurd rfl h
  all_goals rfl

theorem getMember_ok_elim (j : Json) (k : String) (o : Option Json)
    (h : getMember (some j) k = .ok o) : o = member j k := by
  cases j
  · exact Except.noConfusion h
  all_goals exact (Except.ok.inj h).symm

/-- The catch-block line for a 401 `apiStatus` failure contains "401". -/
theorem containsStr_status401 (label stx : String) :
    containsStr (label ++ " " ++ (CallFailure.apiStatus 401 stx).message) "401" := by
  refine ⟨(label ++ " ") ++ "API error: ", " " ++ stx, ?_⟩
  show label ++ " " ++ ("API error: " ++ toString (401 : Nat) ++ " " ++ stx) = _
  simp only [String.append_assoc]
  rfl

/-- The catch-block line for a 401 `apiStatusBody` failure contains "401". -/
theorem containsStr_statusBody401 (label bodyText : String) :
    containsStr (label ++ " " ++ (CallFailure.apiStatusBody 401 bodyText).message) "401" := by
  refine ⟨(label ++ " ") ++ "API error: ", " - " ++ bodyText, ?_⟩
  show label ++ " " ++ ("API error: " ++ toString (401 : Nat) ++ " - " ++ bodyText) = _
  simp only [String.append_assoc]
  rfl

theorem Insights.getInsights_env_congr (env1 env2 : Env) (w : Request → FetchResult)
    (fmt : Option Json → String) (h : request env1 = request env2) :
    getInsights env1 w fmt = getInsights env2 w fmt := by
  unfold getInsights
  rw [h]

theorem Events.trackEvent_env_congr (env1 env2 : Env) (w : Request → FetchResult)
    (nowIso : String) (h : request env1 nowIso = request env2 nowIso) :
    trackEvent env1 w nowIso = trackEvent env2 w nowIso := by
  unfold trackEvent
  rw [h]

theorem KnowledgeBase.searchKnowledgeBase_env_congr (env1 env2 : Env)
    (w : Request → FetchResult) (fmt : Option Json → String) (enc : String → String)
    (query : String) (h : request env1 enc query = request env2 enc query) :
    searchKnowledgeBase env1 w fmt enc query = searchKnowledgeBase env2 w fmt enc query := by
  unfold searchKnowledgeBase
  rw [h]

theorem BatchEvents.trackBatchEvents_env_congr (env1 env2 : Env)
    (w : Request → FetchResult) (t0 t1 t2 : String)
    (h : request env1 t0 t1 t2 = request env2 t0 t1 t2) :
    trackBatchEvents env1 w t0 t1 t2 = trackBatchEvents env2 w t0 t1 t2 := by
  unfold trackBatchEvents
  rw [h]

theorem IngestEvents.ingestEvents_env_congr (env1 env2 : Env)
    (w : Request → FetchResult) (events : List Json)
    (h : request env1 events = request env2 events) :
    ingestEvents env1 w events = ingestEvents env2 w events := by
  unfold ingestEvents
  rw [h]

theorem GenerateInsight.generateInsight_env_congr (env1 env2 : Env)
    (w : Request → FetchResult) (iT tP fA : Option String)
    (h : request env1 iT tP fA = request env2 iT tP fA) :
    generateInsight env1 w iT tP fA = generateInsight env2 w iT tP fA := by
  unfold generateInsight
  rw [h]

/-! ## The claims -/

/-- C4, counterexample: the claim says every example script falls back to
one fixed production origin when `TRIBE_API_BASE` is unset, but
`ingest-events.js` (and the generate-insight example) fall back to the
local origin `http://localhost:8080`, which differs from the production
origin `https://tribecode.ai/api` used by `insights.js`. -/
theorem claim_C4_counterexample :
    IngestEvents.API_BASE ⟨none, none⟩ = "http://localhost:8080" ∧
    Insights.API_BASE ⟨none, none⟩ = "https://tribecode.ai/api" ∧
    IngestEvents.API_BASE ⟨none, none⟩ ≠ Insights.API_BASE ⟨none, none⟩ :=
  ⟨rfl, rfl, by decide⟩

/-- C4 (amended): when `TRIBE_API_KEY` is unset every script uses the
fixed placeholder "your_api_key_here"; when `TRIBE_API_BASE` is unset,
each script uses its own fixed default origin — the production origin
`https://tribecode.ai/api` for insights, events, knowledge-base and
batch-events, and the local origin `http://localhost:8080` for
ingest-events and generate-insight. -/
theorem claim_C4_amended (k b : Option String) :
    Insights.API_KEY ⟨none, b⟩ = "your_api_key_here" ∧
    Events.API_KEY ⟨none, b⟩ = "your_api_key_here" ∧
    KnowledgeBase.API_KEY ⟨none, b⟩ = "your_api_key_here" ∧
    BatchEvents.API_KEY ⟨none, b⟩ = "your_api_key_here" ∧
    IngestEvents.API_KEY ⟨none, b⟩ = "your_api_key_here" ∧
    GenerateInsight.API_KEY ⟨none, b⟩ = "your_api_key_here" ∧
    Insights.API_BASE ⟨k, none⟩ = "https://tribecode.ai/api" ∧
    Events.API_BASE ⟨k, none⟩ = "https://tribecode.ai/api" ∧
    KnowledgeBase.API_BASE ⟨k, none⟩ = "https://tribecode.ai/api" ∧
    BatchEvents.API_BASE ⟨k, none⟩ = "https://tribecode.ai/api" ∧
    IngestEvents.API_BASE ⟨k, none⟩ = "http://localhost:8080" ∧
    GenerateInsight.API_BASE ⟨k, none⟩ = "http://localhost:8080" :=
  ⟨rfl, rfl, rfl, rfl, rfl, rfl, rfl, rfl, rfl, rfl, rfl, rfl⟩

/-- C7: every invocation of every example operation issues exactly one
HTTP request, whatever the fetch oracle answers — there is no retry path
in any of the six functions, and no further request follows a failure. -/
theorem claim_C7 (env : Env) (w : Request → FetchResult) (fmt : Option Json → String)
    (enc : String → String) (query nowIso t0 t1 t2 : String) (events : List Json)
    (iT tP fA : Option String) :
    (Insights.getInsights env w fmt).requests.length = 1 ∧
    (Events.trackEvent env w nowIso).requests.length = 1 ∧
    (KnowledgeBase.searchKnowledgeBase env w fmt enc query).requests.length = 1 ∧
    (BatchEvents.trackBatchEvents env w t0 t1 t2).requests.length = 1 ∧
    (IngestEvents.ingestEvents env w events).requests.length = 1 ∧
    (GenerateInsight.generateInsight env w iT tP fA).requests.length = 1 := by
  refine ⟨?_, ?_, ?_, ?_, ?_, ?_⟩
  · rw [Insights.getInsights_requests]; rfl
  · rw [Events.trackEvent_requests]; rfl
  · rw [KnowledgeBase.searchKnowledgeBase_requests]; rfl
  · rw [BatchEvents.trackBatchEvents_requests]; rfl
  · rw [IngestEvents.ingestEvents_requests]; rfl
  · rw [GenerateInsight.generateInsight_requests]; rfl

/-- C9: setting `TRIBE_API_KEY` or `TRIBE_API_BASE` to the empty string
behaves exactly like leaving the variable unset, for each example
operation — the JS `||` fallback treats the empty string as falsy. -/
theorem claim_C9 (k b : Option String) (w : Request → FetchResult)
    (fmt : Option Json → String) (enc : String → String)
    (query nowIso t0 t1 t2 : String) (events : List Json) (iT tP fA : Option String) :
    (Insights.getInsights ⟨some "", b⟩ w fmt = Insights.getInsights ⟨none, b⟩ w fmt) ∧
    (Insights.getInsights ⟨k, some ""⟩ w fmt = Insights.getInsights ⟨k, none⟩ w fmt) ∧
    (Events.trackEvent ⟨some "", b⟩ w nowIso = Events.trackEvent ⟨none, b⟩ w nowIso) ∧
    (Events.trackEvent ⟨k, some ""⟩ w nowIso = Events.trackEvent ⟨k, none⟩ w nowIso) ∧
    (KnowledgeBase.searchKnowledgeBase ⟨some "", b⟩ w fmt enc query
      = KnowledgeBase.searchKnowledgeBase ⟨none, b⟩ w fmt enc query) ∧
    (KnowledgeBase.searchKnowledgeBase ⟨k, some ""⟩ w fmt enc query
      = KnowledgeBase.searchKnowledgeBase ⟨k, none⟩ w fmt enc query) ∧
    (BatchEvents.trackBatchEvents ⟨some "", b⟩ w t0 t1 t2
      = BatchEvents.trackBatchEvents ⟨none, b⟩ w t0 t1 t2) ∧
    (BatchEvents.trackBatchEvents ⟨k, some ""⟩ w t0 t1 t2
      = BatchEvents.trackBatchEvents ⟨k, none⟩ w t0 t1 t2) ∧
    (IngestEvents.ingestEvents ⟨some "", b⟩ w events
      = IngestEvents.ingestEvents ⟨none, b⟩ w events) ∧
    (IngestEvents.ingestEvents ⟨k, some ""⟩ w events
      = IngestEvents.ingestEvents ⟨k, none⟩ w events) ∧
    (GenerateInsight.generateInsight ⟨some "", b⟩ w iT tP fA
      = GenerateInsight.generateInsight ⟨none, b⟩ w iT tP fA) ∧
    (GenerateInsight.generateInsight ⟨k, some ""⟩ w iT tP fA
      = GenerateInsight.generateInsight ⟨k, none⟩ w iT tP fA) := by
  refine ⟨?_, ?_, ?_, ?_, ?_, ?_, ?_, ?_, ?_, ?_, ?_, ?_⟩
  · exact Insights.getInsights_env_congr _ _ _ _
      (by simp [Insights.request, Insights.API_KEY, Insights.API_BASE, jsOrEnv])
  · exact Insights.getInsights_env_congr _ _ _ _
      (by simp [Insights.request, Insights.API_KEY, Insights.API_BASE, jsOrEnv])
  · exact Events.trackEvent_env_congr _ _ _ _
      (by simp [Events.request, Events.API_KEY, Events.API_BASE, jsOrEnv])
  · exact Events.trackEvent_env_congr _ _ _ _
      (by simp [Events.request, Events.API_KEY, Events.API_BASE, jsOrEnv])
  · exact KnowledgeBase.searchKnowledgeBase_env_congr _ _ _ _ _ _
      (by simp [KnowledgeBase.request, KnowledgeBase.API_KEY, KnowledgeBase.API_BASE, jsOrEnv])
  · exact KnowledgeBase.searchKnowledgeBase_env_congr _ _ _ _ _ _
      (by simp [KnowledgeBase.request, KnowledgeBase.API_KEY, KnowledgeBase.API_BASE, jsOrEnv])
  · exact BatchEvents.trackBatchEvents_env_congr _ _ _ _ _ _
      (by simp [BatchEvents.request, BatchEvents.API_KEY, BatchEvents.API_BASE, jsOrEnv])
  · exact BatchEvents.trackBatchEvents_env_congr _ _ _ _ _ _
      (by simp [BatchEvents.request, BatchEvents.API_KEY, BatchEvents.API_BASE, jsOrEnv])
  · exact IngestEvents.ingestEvents_env_congr _ _ _ _
      (by simp [IngestEvents.request, IngestEvents.API_KEY, IngestEvents.API_BASE, jsOrEnv])
  · exact IngestEvents.ingestEvents_env_congr _ _ _ _
      (by simp [IngestEvents.request, IngestEvents.API_KEY, IngestEvents.API_BASE, jsOrEnv])
  · exact GenerateInsight.generateInsight_env_congr _ _ _ _ _ _
      (by simp [GenerateInsight.request, GenerateInsight.API_KEY, GenerateInsight.API_BASE, jsOrEnv])
  · exact GenerateInsight.generateInsight_env_congr _ _ _ _ _ _
      (by simp [GenerateInsight.request, GenerateInsight.API_KEY, GenerateInsight.API_BASE, jsOrEnv])

/-- C1, counterexample: for a 500 response with status text
"Internal Server Error" and body text "oops", `getInsights` fails with the
error built from the status and STATUS TEXT; the body text "oops" is never
read and does not occur in the error, so the failure does not carry the
response body read as text as the claim asserts for all six wrappers. -/
theorem claim_C1_counterexample :
    ((Insights.getInsights ⟨none, none⟩
        (fun _ => .got ⟨500, "Internal Server Error", "oops", none, "syntax error"⟩)
        (fun _ => "d")).result
      = .error (.apiStatus 500 "Internal Server Error")) ∧
    containsStrB ((CallFailure.apiStatus 500 "Internal Server Error").message) "oops" = false :=
  ⟨rfl, by decide⟩

/-- C1 (amended): for every HTTP response with status outside [200,299],
each of the six wrappers fails with an error recording the observed status
code, and none of them JSON-parses the error body as a success payload
(the failure is fully determined by the status line plus, where read, the
body text).  `ingestEvents` and `generateInsight` carry the response body
read as text; `getInsights`, `trackEvent`, `searchKnowledgeBase` and
`trackBatchEvents` instead carry the HTTP status text. -/
theorem claim_C1_amended (env : Env) (fmt : Option Json → String) (enc : String → String)
    (query nowIso t0 t1 t2 : String) (events : List Json) (iT tP fA : Option String)
    (r : HttpResponse) (h : r.isOk = false) :
    ((Insights.getInsights env (fun _ => .got r) fmt).result
        = .error (.apiStatus r.status r.statusText)) ∧
    ((Events.trackEvent env (fun _ => .got r) nowIso).result
        = .error (.apiStatus r.status r.statusText)) ∧
    ((KnowledgeBase.searchKnowledgeBase env (fun _ => .got r) fmt enc query).result
        = .error (.apiStatus r.status r.statusText)) ∧
    ((BatchEvents.trackBatchEvents env (fun _ => .got r) t0 t1 t2).result
        = .error (.apiStatus r.status r.statusText)) ∧
    ((IngestEvents.ingestEvents env (fun _ => .got r) events).result
        = .error (.apiStatusBody r.status r.bodyText)) ∧
    ((GenerateInsight.generateInsight env (fun _ => .got r) iT tP fA).result
        = .error (.apiStatusBody r.status r.bodyText)) := by
  refine ⟨?_, ?_, ?_, ?_, ?_, ?_⟩
  · simp [Insights.getInsights, callA_of_notOk r h, failRun]
  · simp [Events.trackEvent, callA_of_notOk r h, failRun]
  · simp [KnowledgeBase.searchKnowledgeBase, callA_of_notOk r h, failRun]
  · simp [BatchEvents.trackBatchEvents, callA_of_notOk r h, failRun]
  · simp [IngestEvents.ingestEvents, callB_of_notOk r h, failRun]
  · simp [GenerateInsight.generateInsight, callB_of_notOk r h, failRun]

/-- C1 witness: the amended theorem applied at a concrete 404 response. -/
theorem claim_C1_witness :
    (HttpResponse.isOk ⟨404, "Not Found", "nf", none, "e"⟩ = false) ∧
    ((Insights.getInsights ⟨none, none⟩
        (fun _ => .got ⟨404, "Not Found", "nf", none, "e"⟩) (fun _ => "d")).result
      = .error (.apiStatus 404 "Not Found")) :=
  ⟨by decide,
   (claim_C1_amended ⟨none, none⟩ (fun _ => "d") (fun s => s) "q" "n" "a" "b" "c" []
      none none none ⟨404, "Not Found", "nf", none, "e"⟩ (by decide)).1⟩

/-- C5: every HTTP request issued by every example operation carries both
the `Authorization: Bearer token` header and the
`Content-Type: application/json` header. -/
theorem claim_C5 (env : Env) (w : Request → FetchResult) (fmt : Option Json → String)
    (enc : String → String) (query nowIso t0 t1 t2 : String) (events : List Json)
    (iT tP fA : Option String) :
    (∀ req ∈ (Insights.getInsights env w fmt).requests,
      ("Authorization", "Bearer " ++ Insights.API_KEY env) ∈ req.headers ∧
      ("Content-Type", "application/json") ∈ req.headers) ∧
    (∀ req ∈ (Events.trackEvent env w nowIso).requests,
      ("Authorization", "Bearer " ++ Events.API_KEY env) ∈ req.headers ∧
      ("Content-Type", "application/json") ∈ req.headers) ∧
    (∀ req ∈ (KnowledgeBase.searchKnowledgeBase env w fmt enc query).requests,
      ("Authorization", "Bearer " ++ KnowledgeBase.API_KEY env) ∈ req.headers ∧
      ("Content-Type", "application/json") ∈ req.headers) ∧
    (∀ req ∈ (BatchEvents.trackBatchEvents env w t0 t1 t2).requests,
      ("Authorization", "Bearer " ++ BatchEvents.API_KEY env) ∈ req.headers ∧
      ("Content-Type", "application/json") ∈ req.headers) ∧
    (∀ req ∈ (IngestEvents.ingestEvents env w events).requests,
      ("Authorization", "Bearer " ++ IngestEvents.API_KEY env) ∈ req.headers ∧
      ("Content-Type", "application/json") ∈ req.headers) ∧
    (∀ req ∈ (GenerateInsight.generateInsight env w iT tP fA).requests,
      ("Authorization", "Bearer " ++ GenerateInsight.API_KEY env) ∈ req.headers ∧
      ("Content-Type", "application/json") ∈ req.headers) := by
  refine ⟨?_, ?_, ?_, ?_, ?_, ?_⟩
  · rw [Insights.getInsights_requests]
    intro req hreq
    rw [List.mem_singleton] at hreq
    subst hreq
    exact ⟨List.Mem.head _, List.Mem.tail _ (List.Mem.head _)⟩
  · rw [Events.trackEvent_requests]
    intro req hreq
    rw [List.mem_singleton] at hreq
    subst hreq
    exact ⟨List.Mem.head _, List.Mem.tail _ (List.Mem.head _)⟩
  · rw [KnowledgeBase.searchKnowledgeBase_requests]
    intro req hreq
    rw [List.mem_singleton] at hreq
    subst hreq
    exact ⟨List.Mem.head _, List.Mem.tail _ (List.Mem.head _)⟩
  · rw [BatchEvents.trackBatchEvents_requests]
    intro req hreq
    rw [List.mem_singleton] at hreq
    subst hreq
    exact ⟨List.Mem.head _, List.Mem.tail _ (List.Mem.head _)⟩
  · rw [IngestEvents.ingestEvents_requests]
    intro req hreq
    rw [List.mem_singleton] at hreq
    subst hreq
    exact ⟨List.Mem.head _, List.Mem.tail _ (List.Mem.head _)⟩
  · rw [GenerateInsight.generateInsight_requests]
    intro req hreq
    rw [List.mem_singleton] at hreq
    subst hreq
    exact ⟨List.Mem.head _, List.Mem.tail _ (List.Mem.head _)⟩

/-- C5 witness: the headers property applied to the one concrete request
of a concrete `getInsights` run. -/
theorem claim_C5_witness :
    (Insights.request ⟨none, none⟩
        ∈ (Insights.getInsights ⟨none, none⟩ (fun _ => .netErr "down") (fun _ => "d")).requests) ∧
    (("Authorization", "Bearer " ++ Insights.API_KEY ⟨none, none⟩)
        ∈ (Insights.request ⟨none, none⟩).headers ∧
     ("Content-Type", "application/json") ∈ (Insights.request ⟨none, none⟩).headers) :=
  ⟨List.Mem.head _,
   (claim_C5 ⟨none, none⟩ (fun _ => .netErr "down") (fun _ => "d") (fun s => s)
      "q" "n" "a" "b" "c" [] none none none).1 _ (List.Mem.head _)⟩

/-- C2, counterexample: `ingestEvents` on a 2xx response with the valid
JSON body `{"success": false}` fails with the application-level error
"Event ingestion failed", a failure that is none of the three claimed
classes (transport, api, malformed) — so not every failure of a call is
classified by the three-way taxonomy. -/
theorem claim_C2_counterexample :
    ((IngestEvents.ingestEvents ⟨none, none⟩
        (fun _ => .got ⟨200, "OK", "success false body",
            some (.obj [("success", .bool false)]), ""⟩) []).result
      = .error (.appFail "Event ingestion failed")) ∧
    specClass (.appFail "Event ingestion failed") ≠ .transport ∧
    specClass (.appFail "Event ingestion failed") ≠ .api ∧
    specClass (.appFail "Event ingestion failed") ≠ .malformed :=
  ⟨rfl, by decide, by decide, by decide⟩

/-- C2 (amended): every failure of the shared HTTP round-trip stage (fetch
plus status check plus JSON parse, in both its status-text and body-text
variants) is exactly one of the three classes — transport when fetch
rejects, api when the status is outside [200,299], malformed when a 2xx
body fails to parse — and in particular a 2xx response with an unparsable
body makes every one of the six operations fail with the parse error,
returning no (partial) value; the example callers may additionally fail
after the stage returns, with application-level or projection errors. -/
theorem claim_C2_amended :
    (∀ m, callA (.netErr m) = .error (.netError m) ∧
        specClass (.netError m) = .transport) ∧
    (∀ r : HttpResponse, r.isOk = false →
        callA (.got r) = .error (.apiStatus r.status r.statusText) ∧
        specClass (.apiStatus r.status r.statusText) = .api) ∧
    (∀ r : HttpResponse, r.isOk = true → r.bodyJson = none →
        callA (.got r) = .error (.badJson r.jsonErrMsg) ∧
        specClass (.badJson r.jsonErrMsg) = .malformed) ∧
    (∀ (r : HttpResponse) (j : Json), r.isOk = true → r.bodyJson = some j →
        callA (.got r) = .ok j) ∧
    (∀ m, callB (.netErr m) = .error (.netError m) ∧
        specClass (.netError m) = .transport) ∧
    (∀ r : HttpResponse, r.isOk = false →
        callB (.got r) = .error (.apiStatusBody r.status r.bodyText) ∧
        specClass (.apiStatusBody r.status r.bodyText) = .api) ∧
    (∀ r : HttpResponse, r.isOk = true → r.bodyJson = none →
        callB (.got r) = .error (.badJson r.jsonErrMsg) ∧
        specClass (.badJson r.jsonErrMsg) = .malformed) ∧
    (∀ (r : HttpResponse) (j : Json), r.isOk = true → r.bodyJson = some j →
        callB (.got r) = .ok j) ∧
    (∀ (env : Env) (fmt : Option Json → String) (enc : String → String)
        (query nowIso t0 t1 t2 : String) (events : List Json) (iT tP fA : Option String)
        (r : HttpResponse), r.isOk = true → r.bodyJson = none →
      ((Insights.getInsights env (fun _ => .got r) fmt).result
          = .error (.badJson r.jsonErrMsg)) ∧
      ((Events.trackEvent env (fun _ => .got r) nowIso).result
          = .error (.badJson r.jsonErrMsg)) ∧
      ((KnowledgeBase.searchKnowledgeBase env (fun _ => .got r) fmt enc query).result
          = .error (.badJson r.jsonErrMsg)) ∧
      ((BatchEvents.trackBatchEvents env (fun _ => .got r) t0 t1 t2).result
          = .error (.badJson r.jsonErrMsg)) ∧
      ((IngestEvents.ingestEvents env (fun _ => .got r) events).result
          = .error (.badJson r.jsonErrMsg)) ∧
      ((GenerateInsight.generateInsight env (fun _ => .got r) iT tP fA).result
          = .error (.badJson r.jsonErrMsg))) := by
  refine ⟨fun m => ⟨rfl, rfl⟩, ?_, ?_, ?_, fun m => ⟨rfl, rfl⟩, ?_, ?_, ?_, ?_⟩
  · exact fun r h => ⟨callA_of_notOk r h, rfl⟩
  · exact fun r hok hj => ⟨callA_of_ok_none r hok hj, rfl⟩
  · exact fun r j hok hj => callA_of_ok_some r j hok hj
  · exact fun r h => ⟨callB_of_notOk r h, rfl⟩
  · exact fun r hok hj => ⟨callB_of_ok_none r hok hj, rfl⟩
  · exact fun r j hok hj => callB_of_ok_some r j hok hj
  · intro env fmt enc query nowIso t0 t1 t2 events iT tP fA r hok hj
    refine ⟨?_, ?_, ?_, ?_, ?_, ?_⟩
    · simp [Insights.getInsights, callA_of_ok_none r hok hj, failRun]
    · simp [Events.trackEvent, callA_of_ok_none r hok hj, failRun]
    · simp [KnowledgeBase.searchKnowledgeBase, callA_of_ok_none r hok hj, failRun]
    · simp [BatchEvents.trackBatchEvents, callA_of_ok_none r hok hj, failRun]
    · simp [IngestEvents.ingestEvents, callB_of_ok_none r hok hj, failRun]
    · simp [GenerateInsight.generateInsight, callB_of_ok_none r hok hj, failRun]

/-- C2 witness: the amended theorem applied at a concrete 2xx response
whose body is not valid JSON. -/
theorem claim_C2_witness :
    (HttpResponse.isOk ⟨200, "OK", "not json", none, "Unexpected token"⟩ = true) ∧
    ((⟨200, "OK", "not json", none, "Unexpected token"⟩ : HttpResponse).bodyJson = none) ∧
    (callA (.got ⟨200, "OK", "not json", none, "Unexpected token"⟩)
        = .error (.badJson "Unexpected token") ∧
     specClass (.badJson "Unexpected token") = .malformed) :=
  ⟨by decide, rfl,
   (claim_C2_amended).2.2.1 ⟨200, "OK", "not json", none, "Unexpected token"⟩ (by decide) rfl⟩

/-- C6, counterexample: on a 2xx response with body
`{processed: 3, failed: 1, success: 1}` the success field is the number 1,
not the boolean `true`, yet the "✅ All events tracked successfully" line
is printed — because the source tests `if (data.success)`, i.e. JS
truthiness, not equality with `true`. -/
theorem claim_C6_counterexample :
    ("✅ All events tracked successfully" ∈
      (BatchEvents.trackBatchEvents ⟨none, none⟩
        (fun _ => .got ⟨200, "OK", "",
            some (.obj [("processed", .num 3), ("failed", .num 1), ("success", .num 1)]), ""⟩)
        "a" "b" "c").stdout) ∧
    lookupField [("processed", Json.num 3), ("failed", Json.num 1), ("success", Json.num 1)]
        "success" ≠ some (Json.bool true) := by
  refine ⟨by decide, fun h => ?_⟩
  have h2 : Json.num 1 = Json.bool true := Option.some.inj h
  exact Json.noConfusion h2

/-- C6 (amended): with the fixture body
`{processed: 3, failed: 0, success: true}` the caller prints exactly the
lines of the scenario, including "Successfully processed: 3", "Failed: 0"
(the source template ends in a newline) and
"✅ All events tracked successfully"; and in general, for any 2xx response
with a parsed non-null body, the final printed line is the all-tracked
line exactly when the body's success field is TRUTHY (so the boolean
`true`, but also any other truthy value). -/
theorem claim_C6_amended :
    ((BatchEvents.trackBatchEvents ⟨none, none⟩
        (fun _ => .got ⟨200, "OK", "",
            some (.obj [("processed", .num 3), ("failed", .num 0), ("success", .bool true)]), ""⟩)
        "a" "b" "c").stdout
      = ["📊 Batch Events Tracked\n", "Total events sent: 3", "Successfully processed: 3",
         "Failed: 0\n", "✅ All events tracked successfully"]) ∧
    (∀ (env : Env) (t0 t1 t2 : String) (r : HttpResponse) (data : Json),
      r.isOk = true → r.bodyJson = some data → data ≠ .null →
      (((BatchEvents.trackBatchEvents env (fun _ => .got r) t0 t1 t2).stdout).getLast?
          = some "✅ All events tracked successfully"
        ↔ truthy (member data "success") = true)) := by
  refine ⟨rfl, ?_⟩
  intro env t0 t1 t2 r data hok hbody hnn
  have hc : callA (FetchResult.got r) = .ok data := callA_of_ok_some r data hok hbody
  simp only [BatchEvents.trackBatchEvents, BatchEvents.renderBatch, hc,
             getMember_of_ne_null data "processed" hnn]
  by_cases ht : truthy (member data "success") = true
  · rw [if_pos ht]
    exact iff_of_true rfl ht
  · rw [if_neg ht]
    constructor
    · intro h
      have h2 : some "⚠️  Some events failed to track"
          = some "✅ All events tracked successfully" := h
      exact absurd (Option.some.inj h2) (by decide)
    · intro h
      exact absurd h ht

/-- C6 witness: the truthiness equivalence applied at the concrete fixture
response of the scenario. -/
theorem claim_C6_witness :
    (HttpResponse.isOk ⟨200, "OK", "",
        some (.obj [("processed", .num 3), ("failed", .num 0), ("success", .bool true)]), ""⟩
      = true) ∧
    (((BatchEvents.trackBatchEvents ⟨none, none⟩
        (fun _ => .got ⟨200, "OK", "",
            some (.obj [("processed", .num 3), ("failed", .num 0), ("success", .bool true)]), ""⟩)
        "a" "b" "c").stdout).getLast? = some "✅ All events tracked successfully"
      ↔ truthy (member (.obj [("processed", Json.num 3), ("failed", Json.num 0),
            ("success", Json.bool true)]) "success") = true) :=
  ⟨by decide,
   (claim_C6_amended).2 ⟨none, none⟩ "a" "b" "c"
      ⟨200, "OK", "",
        some (.obj [("processed", .num 3), ("failed", .num 0), ("success", .bool true)]), ""⟩
      (.obj [("processed", .num 3), ("failed", .num 0), ("success", .bool true)])
      (by decide) rfl (fun h => Json.noConfusion h)⟩

/-- C8, counterexample: for an article whose tags field is the non-empty
list containing one empty string, the join produces the empty string,
which is falsy, so the caller renders "none" rather than the joined tags —
refuting the claim that every non-empty list renders as the join. -/
theorem claim_C8_counterexample :
    (KnowledgeBase.tagsJoin (some (.arr [.str ""])) = .ok "none") ∧
    (joinJs [.str ""] ", " = "") ∧
    ("none" ≠ joinJs [.str ""] ", ") ∧
    ("   Tags: none" ∈ (KnowledgeBase.searchKnowledgeBase ⟨none, none⟩
        (fun _ => .got ⟨200, "OK", "",
            some (.obj [("total", .num 1),
              ("articles", .arr [.obj [("title", .str "T"), ("topic", .str "X"),
                ("tags", .arr [.str ""]), ("updated_at", .str "U")]])]), ""⟩)
        (fun _ => "d") (fun s => s) "oauth").stdout) ∧
    ("   Tags: " ∉ (KnowledgeBase.searchKnowledgeBase ⟨none, none⟩
        (fun _ => .got ⟨200, "OK", "",
            some (.obj [("total", .num 1),
              ("articles", .arr [.obj [("title", .str "T"), ("topic", .str "X"),
                ("tags", .arr [.str ""]), ("updated_at", .str "U")]])]), ""⟩)
        (fun _ => "d") (fun s => s) "oauth").stdout) :=
  ⟨rfl, rfl, by decide, by decide, by decide⟩

/-- C8 (amended): an absent tags field renders as "none" instead of
failing; a non-empty tags list renders as the tags joined by ", "
whenever that join is non-empty (a join equal to the empty string — the
single-empty-tag list — is falsy in JS and also renders as "none"). -/
theorem claim_C8_amended :
    (KnowledgeBase.tagsJoin none = .ok "none") ∧
    (∀ es : List Json, es ≠ [] → joinJs es ", " ≠ "" →
      KnowledgeBase.tagsJoin (some (.arr es)) = .ok (joinJs es ", ")) ∧
    ("   Tags: a, b" ∈ (KnowledgeBase.searchKnowledgeBase ⟨none, none⟩
        (fun _ => .got ⟨200, "OK", "",
            some (.obj [("total", .num 1),
              ("articles", .arr [.obj [("title", .str "T"), ("topic", .str "X"),
                ("tags", .arr [.str "a", .str "b"]), ("updated_at", .str "U")]])]), ""⟩)
        (fun _ => "d") (fun s => s) "oauth").stdout) ∧
    ("   Tags: none" ∈ (KnowledgeBase.searchKnowledgeBase ⟨none, none⟩
        (fun _ => .got ⟨200, "OK", "",
            some (.obj [("total", .num 1),
              ("articles", .arr [.obj [("title", .str "T"), ("topic", .str "X"),
                ("updated_at", .str "U")]])]), ""⟩)
        (fun _ => "d") (fun s => s) "oauth").stdout) := by
  refine ⟨rfl, ?_, by decide, by decide⟩
  intro es hne hj
  simp [KnowledgeBase.tagsJoin, jsOrStr, hj]

/-- C8 witness: the non-empty-join clause applied at the concrete tags
list containing "a". -/
theorem claim_C8_witness :
    (([Json.str "a"] : List Json) ≠ []) ∧ (joinJs [.str "a"] ", " ≠ "") ∧
    (KnowledgeBase.tagsJoin (some (.arr [.str "a"])) = .ok (joinJs [.str "a"] ", ")) :=
  ⟨fun h => List.noConfusion h, by decide,
   (claim_C8_amended).2.1 [.str "a"] (fun h => List.noConfusion h) (by decide)⟩

/-- C10, counterexample: a 2xx response whose body is
`{"success": "no"}` — a success field different from `true` but truthy —
makes `ingestEvents` RETURN NORMALLY rather than throw, and the returned
value's success field is not the boolean `true`; the source tests
`if (!data.success)`, i.e. falsiness, not difference from `true`. -/
theorem claim_C10_counterexample :
    ((IngestEvents.ingestEvents ⟨none, none⟩
        (fun _ => .got ⟨200, "OK", "success no body",
            some (.obj [("success", .str "no")]), ""⟩) []).result
      = .ok (.obj [("success", .str "no")])) ∧
    lookupField [("success", Json.str "no")] "success" ≠ some (Json.bool true) :=
  ⟨rfl, fun h => Json.noConfusion (Option.some.inj h)⟩

/-- C10 (amended): for `ingestEvents` and `generateInsight`, a 2xx
response whose body parses to an object whose success field is FALSY
(absent, `null`, `false`, `0` or the empty string) throws
"Event ingestion failed" / "Insight generation failed" although the HTTP
round-trip and JSON parse succeeded; and whenever either operation returns
normally, the returned value's success field is truthy. -/
theorem claim_C10_amended :
    (∀ (env : Env) (events : List Json) (iT tP fA : Option String) (r : HttpResponse)
        (fs : List (String × Json)),
      r.isOk = true → r.bodyJson = some (.obj fs) →
      truthy (lookupField fs "success") = false →
      ((IngestEvents.ingestEvents env (fun _ => .got r) events).result
          = .error (.appFail "Event ingestion failed")) ∧
      ((GenerateInsight.generateInsight env (fun _ => .got r) iT tP fA).result
          = .error (.appFail "Insight generation failed"))) ∧
    (∀ (env : Env) (w : Request → FetchResult) (events : List Json) (v : Json),
      (IngestEvents.ingestEvents env w events).result = .ok v →
      truthy (member v "success") = true) ∧
    (∀ (env : Env) (w : Request → FetchResult) (iT tP fA : Option String) (v : Json),
      (GenerateInsight.generateInsight env w iT tP fA).result = .ok v →
      truthy (member v "success") = true) := by
  refine ⟨?_, ?_, ?_⟩
  · intro env events iT tP fA r fs hok hbody hfalse
    have hcB : callB (FetchResult.got r) = .ok (.obj fs) :=
      callB_of_ok_some r (.obj fs) hok hbody
    constructor
    · simp only [IngestEvents.ingestEvents, hcB,
        getMember_of_ne_null (Json.obj fs) "success" (fun h => Json.noConfusion h),
        member]
      rw [hfalse]
      rfl
    · simp only [GenerateInsight.generateInsight, hcB,
        getMember_of_ne_null (Json.obj fs) "success" (fun h => Json.noConfusion h),
        member]
      rw [hfalse]
      rfl
  · intro env w events v h
    cases hc : callB (w (IngestEvents.request env events)) with
    | error e =>
      simp only [IngestEvents.ingestEvents, hc, failRun] at h
      exact Except.noConfusion h
    | ok data =>
      cases hm : getMember (some data) "success" with
      | error e1 =>
        simp only [IngestEvents.ingestEvents, hc, hm, failRun] at h
        exact Except.noConfusion h
      | ok succ =>
        by_cases ht : truthy succ = true
        · simp only [IngestEvents.ingestEvents, hc, hm, if_pos ht] at h
          have hv : data = v := Except.ok.inj h
          subst hv
          rw [getMember_ok_elim data "success" succ hm] at ht
          exact ht
        · simp only [IngestEvents.ingestEvents, hc, hm, if_neg ht, failRun] at h
          exact Except.noConfusion h
  · intro env w iT tP fA v h
    cases hc : callB (w (GenerateInsight.request env iT tP fA)) with
    | error e =>
      simp only [GenerateInsight.generateInsight, hc, failRun] at h
      exact Except.noConfusion h
    | ok data =>
      cases hm : getMember (some data) "success" with
      | error e1 =>
        simp only [GenerateInsight.generateInsight, hc, hm, failRun] at h
        exact Except.noConfusion h
      | ok succ =>
        by_cases ht : truthy succ = true
        · rcases hr : GenerateInsight.renderGenerate data with ⟨outs, rr⟩
          cases rr with
          | some e1 =>
            simp only [GenerateInsight.generateInsight, hc, hm, if_pos ht, hr, failRun] at h
            exact Except.noConfusion h
          | none =>
            simp only [GenerateInsight.generateInsight, hc, hm, if_pos ht, hr] at h
            have hv : data = v := Except.ok.inj h
            subst hv
            rw [getMember_ok_elim data "success" succ hm] at ht
            exact ht
        · simp only [GenerateInsight.generateInsight, hc, hm, if_neg ht, failRun] at h
          exact Except.noConfusion h

theorem Insights.insightsMain_spec (env : Env) (w : Request → FetchResult)
    (fmt : Option Json → String) :
    ((∃ v, (getInsights env w fmt).result = .ok v) →
      (runMain env w fmt).exitCode = 0 ∧
      "✅ Done" ∈ (runMain env w fmt).stdout ∧
      "📊 TRIBE Analytics Insights\n" ∈ (runMain env w fmt).stdout) ∧
    (∀ e, (getInsights env w fmt).result = .error e →
      (runMain env w fmt).exitCode = 1 ∧
      ∃ s ∈ (runMain env w fmt).stderr, containsStr s e.message) ∧
    (∀ r, w (request env) = .got r → r.status = 401 →
      (runMain env w fmt).exitCode = 1 ∧
      ∃ s ∈ (runMain env w fmt).stderr, containsStr s "401") := by
  have hb : ∀ e, (getInsights env w fmt).result = .error e →
      (runMain env w fmt).exitCode = 1 ∧
      ∃ s ∈ (runMain env w fmt).stderr, containsStr s e.message := by
    intro e he
    rcases getInsights_shape env w fmt with ⟨e1, h1, h2⟩ | ⟨v, h1, h2, h3⟩
    · have he1 : e1 = e := by
        rw [h1] at he
        exact Except.error.inj he
      subst he1
      have hm : runMain env w fmt
          = ⟨1, (getInsights env w fmt).stdout, (getInsights env w fmt).stderr⟩ := by
        unfold runMain
        dsimp only []
        rw [h1]
      rw [hm]
      refine ⟨rfl, ?_⟩
      show ∃ s ∈ (getInsights env w fmt).stderr, containsStr s e1.message
      rw [h2]
      exact ⟨_, List.Mem.head _, containsStr_appendR _ _⟩
    · rw [h1] at he
      exact Except.noConfusion he
  refine ⟨?_, hb, ?_⟩
  · rintro ⟨v, hv⟩
    have hm : runMain env w fmt
        = ⟨0, (getInsights env w fmt).stdout ++ ["✅ Done"],
            (getInsights env w fmt).stderr⟩ := by
      unfold runMain
      dsimp only []
      rw [hv]
    rw [hm]
    refine ⟨rfl, List.mem_append_right _ (List.mem_singleton_self _), ?_⟩
    rcases getInsights_shape env w fmt with ⟨e, h1, _⟩ | ⟨v2, h1, _, hhead⟩
    · rw [hv] at h1
      exact Except.noConfusion h1
    · refine List.mem_append_left _ ?_
      cases hst : (getInsights env w fmt).stdout with
      | nil =>
        rw [hst] at hhead
        exact Option.noConfusion hhead
      | cons a rest =>
        rw [hst] at hhead
        have ha : a = "📊 TRIBE Analytics Insights\n" := Option.some.inj hhead
        rw [ha]
        exact List.Mem.head _
  · intro r hw h401
    have hok : r.isOk = false := notOk_of_status_401 r h401
    have hres : (getInsights env w fmt).result = .error (.apiStatus r.status r.statusText) := by
      unfold getInsights
      dsimp only []
      rw [hw, callA_of_notOk r hok]
      rfl
    rcases hb _ hres with ⟨hexit, s, hs, _⟩
    refine ⟨hexit, s, hs, ?_⟩
    rcases getInsights_shape env w fmt with ⟨e1, h1, h2⟩ | ⟨v, h1, _, _⟩
    · have he1 : e1 = CallFailure.apiStatus r.status r.statusText := by
        rw [h1] at hres
        exact Except.error.inj hres
      subst he1
      have hm : runMain env w fmt
          = ⟨1, (getInsights env w fmt).stdout, (getInsights env w fmt).stderr⟩ := by
        unfold runMain
        dsimp only []
        rw [h1]
      rw [hm] at hs
      rw [h2] at hs
      have hs2 : s = "❌ Error fetching insights:" ++ " "
          ++ (CallFailure.apiStatus r.status r.statusText).message :=
        List.mem_singleton.mp hs
      rw [hs2, h401]
      exact containsStr_status401 _ _
    · rw [h1] at hres
      exact Except.noConfusion hres

theorem Events.eventsMain_spec (env : Env) (w : Request → FetchResult) (nowIso : String) :
    ((∃ v, (trackEvent env w nowIso).result = .ok v) →
      (runMain env w nowIso).exitCode = 0 ∧
      "✅ Done" ∈ (runMain env w nowIso).stdout ∧
      "📡 Event Tracked Successfully\n" ∈ (runMain env w nowIso).stdout) ∧
    (∀ e, (trackEvent env w nowIso).result = .error e →
      (runMain env w nowIso).exitCode = 1 ∧
      ∃ s ∈ (runMain env w nowIso).stderr, containsStr s e.message) ∧
    (∀ r, w (request env nowIso) = .got r → r.status = 401 →
      (runMain env w nowIso).exitCode = 1 ∧
      ∃ s ∈ (runMain env w nowIso).stderr, containsStr s "401") := by
  have hb : ∀ e, (trackEvent env w nowIso).result = .error e →
      (runMain env w nowIso).exitCode = 1 ∧
      ∃ s ∈ (runMain env w nowIso).stderr, containsStr s e.message := by
    intro e he
    rcases trackEvent_shape env w nowIso with ⟨e1, h1, h2⟩ | ⟨v, h1, h2, h3⟩
    · have he1 : e1 = e := by
        rw [h1] at he
        exact Except.error.inj he
      subst he1
      have hm : runMain env w nowIso
          = ⟨1, (trackEvent env w nowIso).stdout, (trackEvent env w nowIso).stderr⟩ := by
        unfold runMain
        dsimp only []
        rw [h1]
      rw [hm]
      refine ⟨rfl, ?_⟩
      show ∃ s ∈ (trackEvent env w nowIso).stderr, containsStr s e1.message
      rw [h2]
      exact ⟨_, List.Mem.head _, containsStr_appendR _ _⟩
    · rw [h1] at he
      exact Except.noConfusion he
  refine ⟨?_, hb, ?_⟩
  · rintro ⟨v, hv⟩
    have hm : runMain env w nowIso
        = ⟨0, (trackEvent env w nowIso).stdout ++ ["✅ Done"],
            (trackEvent env w nowIso).stderr⟩ := by
      unfold runMain
      dsimp only []
      rw [hv]
    rw [hm]
    refine ⟨rfl, List.mem_append_right _ (List.mem_singleton_self _), ?_⟩
    rcases trackEvent_shape env w nowIso with ⟨e, h1, _⟩ | ⟨v2, h1, _, hhead⟩
    · rw [hv] at h1
      exact Except.noConfusion h1
    · refine List.mem_append_left _ ?_
      cases hst : (trackEvent env w nowIso).stdout with
      | nil =>
        rw [hst] at hhead
        exact Option.noConfusion hhead
      | cons a rest =>
        rw [hst] at hhead
        have ha : a = "📡 Event Tracked Successfully\n" := Option.some.inj hhead
        rw [ha]
        exact List.Mem.head _
  · intro r hw h401
    have hok : r.isOk = false := notOk_of_status_401 r h401
    have hres : (trackEvent env w nowIso).result
        = .error (.apiStatus r.status r.statusText) := by
      unfold trackEvent
      dsimp only []
      rw [hw, callA_of_notOk r hok]
      rfl
    rcases hb _ hres with ⟨hexit, s, hs, _⟩
    refine ⟨hexit, s, hs, ?_⟩
    rcases trackEvent_shape env w nowIso with ⟨e1, h1, h2⟩ | ⟨v, h1, _, _⟩
    · have he1 : e1 = CallFailure.apiStatus r.status r.statusText := by
        rw [h1] at hres
        exact Except.error.inj hres
      subst he1
      have hm : runMain env w nowIso
          = ⟨1, (trackEvent env w nowIso).stdout, (trackEvent env w nowIso).stderr⟩ := by
        unfold runMain
        dsimp only []
        rw [h1]
      rw [hm] at hs
      rw [h2] at hs
      have hs2 : s = "❌ Error tracking event:" ++ " "
          ++ (CallFailure.apiStatus r.status r.statusText).message :=
        List.mem_singleton.mp hs
      rw [hs2, h401]
      exact containsStr_status401 _ _
    · rw [h1] at hres
      exact Except.noConfusion hres

theorem KnowledgeBase.knowledgeBaseMain_spec (env : Env) (w : Request → FetchResult)
    (fmt : Option Json → String) (enc : String → String) (argv2 : Option String) :
    ((∃ v, (searchKnowledgeBase env w fmt enc (jsOrEnv argv2 "oauth")).result = .ok v) →
      (runMain env w fmt enc argv2).exitCode = 0 ∧
      "✅ Done" ∈ (runMain env w fmt enc argv2).stdout ∧
      ("📚 Knowledge Base Search Results for: \"" ++ jsOrEnv argv2 "oauth" ++ "\"\n")
        ∈ (runMain env w fmt enc argv2).stdout) ∧
    (∀ e, (searchKnowledgeBase env w fmt enc (jsOrEnv argv2 "oauth")).result = .error e →
      (runMain env w fmt enc argv2).exitCode = 1 ∧
      ∃ s ∈ (runMain env w fmt enc argv2).stderr, containsStr s e.message) ∧
    (∀ r, w (request env enc (jsOrEnv argv2 "oauth")) = .got r → r.status = 401 →
      (runMain env w fmt enc argv2).exitCode = 1 ∧
      ∃ s ∈ (runMain env w fmt enc argv2).stderr, containsStr s "401") := by
  have hb : ∀ e, (searchKnowledgeBase env w fmt enc (jsOrEnv argv2 "oauth")).result = .error e →
      (runMain env w fmt enc argv2).exitCode = 1 ∧
      ∃ s ∈ (runMain env w fmt enc argv2).stderr, containsStr s e.message := by
    intro e he
    rcases searchKnowledgeBase_shape env w fmt enc (jsOrEnv argv2 "oauth")
      with ⟨e1, h1, h2⟩ | ⟨v, h1, h2, h3⟩
    · have he1 : e1 = e := by
        rw [h1] at he
        exact Except.error.inj he
      subst he1
      have hm : runMain env w fmt enc argv2
          = ⟨1, (searchKnowledgeBase env w fmt enc (jsOrEnv argv2 "oauth")).stdout,
              (searchKnowledgeBase env w fmt enc (jsOrEnv argv2 "oauth")).stderr⟩ := by
        unfold runMain
        dsimp only []
        rw [h1]
      rw [hm]
      refine ⟨rfl, ?_⟩
      show ∃ s ∈ (searchKnowledgeBase env w fmt enc (jsOrEnv argv2 "oauth")).stderr,
        containsStr s e1.message
      rw [h2]
      exact ⟨_, List.Mem.head _, containsStr_appendR _ _⟩
    · rw [h1] at he
      exact Except.noConfusion he
  refine ⟨?_, hb, ?_⟩
  · rintro ⟨v, hv⟩
    have hm : runMain env w fmt enc argv2
        = ⟨0, (searchKnowledgeBase env w fmt enc (jsOrEnv argv2 "oauth")).stdout ++ ["✅ Done"],
            (searchKnowledgeBase env w fmt enc (jsOrEnv argv2 "oauth")).stderr⟩ := by
      unfold runMain
      dsimp only []
      rw [hv]
    rw [hm]
    refine ⟨rfl, List.mem_append_right _ (List.mem_singleton_self _), ?_⟩
    rcases searchKnowledgeBase_shape env w fmt enc (jsOrEnv argv2 "oauth")
      with ⟨e, h1, _⟩ | ⟨v2, h1, _, hhead⟩
    · rw [hv] at h1
      exact Except.noConfusion h1
    · refine List.mem_append_left _ ?_
      cases hst : (searchKnowledgeBase env w fmt enc (jsOrEnv argv2 "oauth")).stdout with
      | nil =>
        rw [hst] at hhead
        exact Option.noConfusion hhead
      | cons a rest =>
        rw [hst] at hhead
        have ha : a = "📚 Knowledge Base Search Results for: \""
            ++ jsOrEnv argv2 "oauth" ++ "\"\n" := Option.some.inj hhead
        rw [ha]
        exact List.Mem.head _
  · intro r hw h401
    have hok : r.isOk = false := notOk_of_status_401 r h401
    have hres : (searchKnowledgeBase env w fmt enc (jsOrEnv argv2 "oauth")).result
        = .error (.apiStatus r.status r.statusText) := by
      unfold searchKnowledgeBase
      dsimp only []
      rw [hw, callA_of_notOk r hok]
      rfl
    rcases hb _ hres with ⟨hexit, s, hs, _⟩
    refine ⟨hexit, s, hs, ?_⟩
    rcases searchKnowledgeBase_shape env w fmt enc (jsOrEnv argv2 "oauth")
      with ⟨e1, h1, h2⟩ | ⟨v, h1, _, _⟩
    · have he1 : e1 = CallFailure.apiStatus r.status r.statusText := by
        rw [h1] at hres
        exact Except.error.inj hres
      subst he1
      have hm : runMain env w fmt enc argv2
          = ⟨1, (searchKnowledgeBase env w fmt enc (jsOrEnv argv2 "oauth")).stdout,
              (searchKnowledgeBase env w fmt enc (jsOrEnv argv2 "oauth")).stderr⟩ := by
        unfold runMain
        dsimp only []
        rw [h1]
      rw [hm] at hs
      rw [h2] at hs
      have hs2 : s = "❌ Error searching knowledge base:" ++ " "
          ++ (CallFailure.apiStatus r.status r.statusText).message :=
        List.mem_singleton.mp hs
      rw [hs2, h401]
      exact containsStr_status401 _ _
    · rw [h1] at hres
      exact Except.noConfusion hres

theorem BatchEvents.batchEventsMain_spec (env : Env) (w : Request → FetchResult) (t0 t1 t2 : String) :
    ((∃ v, (trackBatchEvents env w t0 t1 t2).result = .ok v) →
      (runMain env w t0 t1 t2).exitCode = 0 ∧
      "\n✅ Done" ∈ (runMain env w t0 t1 t2).stdout ∧
      "📊 Batch Events Tracked\n" ∈ (runMain env w t0 t1 t2).stdout) ∧
    (∀ e, (trackBatchEvents env w t0 t1 t2).result = .error e →
      (runMain env w t0 t1 t2).exitCode = 1 ∧
      ∃ s ∈ (runMain env w t0 t1 t2).stderr, containsStr s e.message) ∧
    (∀ r, w (request env t0 t1 t2) = .got r → r.status = 401 →
      (runMain env w t0 t1 t2).exitCode = 1 ∧
      ∃ s ∈ (runMain env w t0 t1 t2).stderr, containsStr s "401") := by
  have hb : ∀ e, (trackBatchEvents env w t0 t1 t2).result = .error e →
      (runMain env w t0 t1 t2).exitCode = 1 ∧
      ∃ s ∈ (runMain env w t0 t1 t2).stderr, containsStr s e.message := by
    intro e he
    rcases trackBatchEvents_shape env w t0 t1 t2 with ⟨e1, h1, h2⟩ | ⟨v, h1, h2, h3⟩
    · have he1 : e1 = e := by
        rw [h1] at he
        exact Except.error.inj he
      subst he1
      have hm : runMain env w t0 t1 t2
          = ⟨1, (trackBatchEvents env w t0 t1 t2).stdout,
              (trackBatchEvents env w t0 t1 t2).stderr⟩ := by
        unfold runMain
        dsimp only []
        rw [h1]
      rw [hm]
      refine ⟨rfl, ?_⟩
      show ∃ s ∈ (trackBatchEvents env w t0 t1 t2).stderr, containsStr s e1.message
      rw [h2]
      exact ⟨_, List.Mem.head _, containsStr_appendR _ _⟩
    · rw [h1] at he
      exact Except.noConfusion he
  refine ⟨?_, hb, ?_⟩
  · rintro ⟨v, hv⟩
    have hm : runMain env w t0 t1 t2
        = ⟨0, (trackBatchEvents env w t0 t1 t2).stdout ++ ["\n✅ Done"],
            (trackBatchEvents env w t0 t1 t2).stderr⟩ := by
      unfold runMain
      dsimp only []
      rw [hv]
    rw [hm]
    refine ⟨rfl, List.mem_append_right _ (List.mem_singleton_self _), ?_⟩
    rcases trackBatchEvents_shape env w t0 t1 t2 with ⟨e, h1, _⟩ | ⟨v2, h1, _, hhead⟩
    · rw [hv] at h1
      exact Except.noConfusion h1
    · refine List.mem_append_left _ ?_
      cases hst : (trackBatchEvents env w t0 t1 t2).stdout with
      | nil =>
        rw [hst] at hhead
        exact Option.noConfusion hhead
      | cons a rest =>
        rw [hst] at hhead
        have ha : a = "📊 Batch Events Tracked\n" := Option.some.inj hhead
        rw [ha]
        exact List.Mem.head _
  · intro r hw h401
    have hok : r.isOk = false := notOk_of_status_401 r h401
    have hres : (trackBatchEvents env w t0 t1 t2).result
        = .error (.apiStatus r.status r.statusText) := by
      unfold trackBatchEvents
      dsimp only []
      rw [hw, callA_of_notOk r hok]
      rfl
    rcases hb _ hres with ⟨hexit, s, hs, _⟩
    refine ⟨hexit, s, hs, ?_⟩
    rcases trackBatchEvents_shape env w t0 t1 t2 with ⟨e1, h1, h2⟩ | ⟨v, h1, _, _⟩
    · have he1 : e1 = CallFailure.apiStatus r.status r.statusText := by
        rw [h1] at hres
        exact Except.error.inj hres
      subst he1
      have hm : runMain env w t0 t1 t2
          = ⟨1, (trackBatchEvents env w t0 t1 t2).stdout,
              (trackBatchEvents env w t0 t1 t2).stderr⟩ := by
        unfold runMain
        dsimp only []
        rw [h1]
      rw [hm] at hs
      rw [h2] at hs
      have hs2 : s = "❌ Error tracking batch events:" ++ " "
          ++ (CallFailure.apiStatus r.status r.statusText).message :=
        List.mem_singleton.mp hs
      rw [hs2, h401]
      exact containsStr_status401 _ _
    · rw [h1] at hres
      exact Except.noConfusion hres

theorem IngestEvents.ingestEventsMain_spec (env : Env) (w : Request → FetchResult) :
    ((∃ v, (ingestEvents env w batchEventsList).result = .ok v) →
      (runMain env w).exitCode = 0 ∧
      "\n✅ Done" ∈ (runMain env w).stdout ∧
      "✅ Events ingested successfully\n" ∈ (runMain env w).stdout) ∧
    (∀ e, (ingestEvents env w batchEventsList).result = .error e →
      (runMain env w).exitCode = 1 ∧
      ∃ s ∈ (runMain env w).stderr, containsStr s e.message) ∧
    (∀ r, w (request env batchEventsList) = .got r → r.status = 401 →
      (runMain env w).exitCode = 1 ∧
      ∃ s ∈ (runMain env w).stderr, containsStr s "401") := by
  have hb : ∀ e, (ingestEvents env w batchEventsList).result = .error e →
      (runMain env w).exitCode = 1 ∧
      ∃ s ∈ (runMain env w).stderr, containsStr s e.message := by
    intro e he
    rcases ingestEvents_shape env w batchEventsList with ⟨e1, h1, h2⟩ | ⟨v, h1, h2, h3⟩
    · have he1 : e1 = e := by
        rw [h1] at he
        exact Except.error.inj he
      subst he1
      have hm : runMain env w
          = ⟨1, ["🚀 TRIBE Telemetry Event Ingestion Example\n"]
                  ++ (ingestEvents env w batchEventsList).stdout,
              (ingestEvents env w batchEventsList).stderr⟩ := by
        unfold runMain
        dsimp only []
        rw [h1]
      rw [hm]
      refine ⟨rfl, ?_⟩
      show ∃ s ∈ (ingestEvents env w batchEventsList).stderr, containsStr s e1.message
      rw [h2]
      exact ⟨_, List.Mem.head _, containsStr_appendR _ _⟩
    · rw [h1] at he
      exact Except.noConfusion he
  refine ⟨?_, hb, ?_⟩
  · rintro ⟨v, hv⟩
    have hm : runMain env w
        = ⟨0, ["🚀 TRIBE Telemetry Event Ingestion Example\n"]
                ++ (ingestEvents env w batchEventsList).stdout ++ ["\n✅ Done"],
            (ingestEvents env w batchEventsList).stderr⟩ := by
      unfold runMain
      dsimp only []
      rw [hv]
    rw [hm]
    refine ⟨rfl, List.mem_append_right _ (List.mem_singleton_self _), ?_⟩
    rcases ingestEvents_shape env w batchEventsList with ⟨e, h1, _⟩ | ⟨v2, h1, _, hhead⟩
    · rw [hv] at h1
      exact Except.noConfusion h1
    · refine List.mem_append_left _ (List.mem_append_right _ ?_)
      cases hst : (ingestEvents env w batchEventsList).stdout with
      | nil =>
        rw [hst] at hhead
        exact Option.noConfusion hhead
      | cons a rest =>
        rw [hst] at hhead
        have ha : a = "✅ Events ingested successfully\n" := Option.some.inj hhead
        rw [ha]
        exact List.Mem.head _
  · intro r hw h401
    have hok : r.isOk = false := notOk_of_status_401 r h401
    have hres : (ingestEvents env w batchEventsList).result
        = .error (.apiStatusBody r.status r.bodyText) := by
      unfold ingestEvents
      dsimp only []
      rw [hw, callB_of_notOk r hok]
      rfl
    rcases hb _ hres with ⟨hexit, s, hs, _⟩
    refine ⟨hexit, s, hs, ?_⟩
    rcases ingestEvents_shape env w batchEventsList with ⟨e1, h1, h2⟩ | ⟨v, h1, _, _⟩
    · have he1 : e1 = CallFailure.apiStatusBody r.status r.bodyText := by
        rw [h1] at hres
        exact Except.error.inj hres
      subst he1
      have hm : runMain env w
          = ⟨1, ["🚀 TRIBE Telemetry Event Ingestion Example\n"]
                  ++ (ingestEvents env w batchEventsList).stdout,
              (ingestEvents env w batchEventsList).stderr⟩ := by
        unfold runMain
        dsimp only []
        rw [h1]
      rw [hm] at hs
      rw [h2] at hs
      have hs2 : s = "❌ Error ingesting events:" ++ " "
          ++ (CallFailure.apiStatusBody r.status r.bodyText).message :=
        List.mem_singleton.mp hs
      rw [hs2, h401]
      exact containsStr_statusBody401 _ _
    · rw [h1] at hres
      exact Except.noConfusion hres

theorem GenerateInsight.generateInsightMain_spec (env : Env) (w : Request → FetchResult) :
    ((∃ v, (generateInsight env w
          (some "usage_analysis") (some "7d") (some "code_quality")).result = .ok v) →
      (runMain env w).exitCode = 0 ∧
      "\n✅ Done" ∈ (runMain env w).stdout ∧
      "🤖 AI-Powered Insight Generated\n" ∈ (runMain env w).stdout) ∧
    (∀ e, (generateInsight env w
          (some "usage_analysis") (some "7d") (some "code_quality")).result = .error e →
      (runMain env w).exitCode = 1 ∧
      ∃ s ∈ (runMain env w).stderr, containsStr s e.message) ∧
    (∀ r, w (request env (some "usage_analysis") (some "7d") (some "code_quality")) = .got r →
      r.status = 401 →
      (runMain env w).exitCode = 1 ∧
      ∃ s ∈ (runMain env w).stderr, containsStr s "401") := by
  have hb : ∀ e, (generateInsight env w
        (some "usage_analysis") (some "7d") (some "code_quality")).result = .error e →
      (runMain env w).exitCode = 1 ∧
      ∃ s ∈ (runMain env w).stderr, containsStr s e.message := by
    intro e he
    rcases generateInsight_shape env w (some "usage_analysis") (some "7d") (some "code_quality")
      with ⟨e1, h1, h2⟩ | ⟨v, h1, h2, h3⟩
    · have he1 : e1 = e := by
        rw [h1] at he
        exact Except.error.inj he
      subst he1
      have hm : runMain env w
          = ⟨1, (generateInsight env w
                  (some "usage_analysis") (some "7d") (some "code_quality")).stdout,
              (generateInsight env w
                  (some "usage_analysis") (some "7d") (some "code_quality")).stderr⟩ := by
        unfold runMain
        dsimp only []
        rw [h1]
      rw [hm]
      refine ⟨rfl, ?_⟩
      show ∃ s ∈ (generateInsight env w
          (some "usage_analysis") (some "7d") (some "code_quality")).stderr,
        containsStr s e1.message
      rw [h2]
      exact ⟨_, List.Mem.head _, containsStr_appendR _ _⟩
    · rw [h1] at he
      exact Except.noConfusion he
  refine ⟨?_, hb, ?_⟩
  · rintro ⟨v, hv⟩
    have hm : runMain env w
        = ⟨0, (generateInsight env w
                (some "usage_analysis") (some "7d") (some "code_quality")).stdout ++ ["\n✅ Done"],
            (generateInsight env w
                (some "usage_analysis") (some "7d") (some "code_quality")).stderr⟩ := by
      unfold runMain
      dsimp only []
      rw [hv]
    rw [hm]
    refine ⟨rfl, List.mem_append_right _ (List.mem_singleton_self _), ?_⟩
    rcases generateInsight_shape env w (some "usage_analysis") (some "7d") (some "code_quality")
      with ⟨e, h1, _⟩ | ⟨v2, h1, _, hhead⟩
    · rw [hv] at h1
      exact Except.noConfusion h1
    · refine List.mem_append_left _ ?_
      cases hst : (generateInsight env w
          (some "usage_analysis") (some "7d") (some "code_quality")).stdout with
      | nil =>
        rw [hst] at hhead
        exact Option.noConfusion hhead
      | cons a rest =>
        rw [hst] at hhead
        have ha : a = "🤖 AI-Powered Insight Generated\n" := Option.some.inj hhead
        rw [ha]
        exact List.Mem.head _
  · intro r hw h401
    have hok : r.isOk = false := notOk_of_status_401 r h401
    have hres : (generateInsight env w
          (some "usage_analysis") (some "7d") (some "code_quality")).result
        = .error (.apiStatusBody r.status r.bodyText) := by
      unfold generateInsight
      dsimp only []
      rw [hw, callB_of_notOk r hok]
      rfl
    rcases hb _ hres with ⟨hexit, s, hs, _⟩
    refine ⟨hexit, s, hs, ?_⟩
    rcases generateInsight_shape env w (some "usage_analysis") (some "7d") (some "code_quality")
      with ⟨e1, h1, h2⟩ | ⟨v, h1, _, _⟩
    · have he1 : e1 = CallFailure.apiStatusBody r.status r.bodyText := by
        rw [h1] at hres
        exact Except.error.inj hres
      subst he1
      have hm : runMain env w
          = ⟨1, (generateInsight env w
                  (some "usage_analysis") (some "7d") (some "code_quality")).stdout,
              (generateInsight env w
                  (some "usage_analysis") (some "7d") (some "code_quality")).stderr⟩ := by
        unfold runMain
        dsimp only []
        rw [h1]
      rw [hm] at hs
      rw [h2] at hs
      have hs2 : s = "❌ Error generating insight:" ++ " "
          ++ (CallFailure.apiStatusBody r.status r.bodyText).message :=
        List.mem_singleton.mp hs
      rw [hs2, h401]
      exact containsStr_statusBody401 _ _
    · rw [h1] at hres
      exact Except.noConfusion hres

/-- C10 witness: the falsy-success clause applied at a concrete 2xx
response with body `{"success": false}`. -/
theorem claim_C10_witness :
    (HttpResponse.isOk ⟨200, "OK", "success false body",
        some (.obj [("success", .bool false)]), ""⟩ = true) ∧
    (truthy (lookupField [("success", Json.bool false)] "success") = false) ∧
    ((IngestEvents.ingestEvents ⟨none, none⟩
        (fun _ => .got ⟨200, "OK", "success false body",
            some (.obj [("success", .bool false)]), ""⟩) []).result
      = .error (.appFail "Event ingestion failed")) :=
  ⟨by decide, by decide,
   ((claim_C10_amended).1 ⟨none, none⟩ [] none none none
      ⟨200, "OK", "success false body", some (.obj [("success", .bool false)]), ""⟩
      [("success", .bool false)] (by decide) rfl (by decide)).1⟩

/-- C3: for every example script run as a main module — whatever the fetch
oracle answers — the process exits 0 on success after printing its
formatted summary (the script header line and the final Done line are on
stdout), exits 1 on any thrown error with the error message written to the
error stream, and in particular a 401-returning server yields exit code 1
with a stderr line containing "401". -/
theorem claim_C3 (env : Env) (w : Request → FetchResult) (fmt : Option Json → String)
    (enc : String → String) (argv2 : Option String) (nowIso t0 t1 t2 : String) :
    (((∃ v, (Insights.getInsights env w fmt).result = .ok v) →
        (Insights.runMain env w fmt).exitCode = 0 ∧
        "✅ Done" ∈ (Insights.runMain env w fmt).stdout ∧
        "📊 TRIBE Analytics Insights\n" ∈ (Insights.runMain env w fmt).stdout) ∧
      (∀ e, (Insights.getInsights env w fmt).result = .error e →
        (Insights.runMain env w fmt).exitCode = 1 ∧
        ∃ s ∈ (Insights.runMain env w fmt).stderr, containsStr s e.message) ∧
      (∀ r, w (Insights.request env) = .got r → r.status = 401 →
        (Insights.runMain env w fmt).exitCode = 1 ∧
        ∃ s ∈ (Insights.runMain env w fmt).stderr, containsStr s "401")) ∧
    (((∃ v, (Events.trackEvent env w nowIso).result = .ok v) →
        (Events.runMain env w nowIso).exitCode = 0 ∧
        "✅ Done" ∈ (Events.runMain env w nowIso).stdout ∧
        "📡 Event Tracked Successfully\n" ∈ (Events.runMain env w nowIso).stdout) ∧
      (∀ e, (Events.trackEvent env w nowIso).result = .error e →
        (Events.runMain env w nowIso).exitCode = 1 ∧
        ∃ s ∈ (Events.runMain env w nowIso).stderr, containsStr s e.message) ∧
      (∀ r, w (Events.request env nowIso) = .got r → r.status = 401 →
        (Events.runMain env w nowIso).exitCode = 1 ∧
        ∃ s ∈ (Events.runMain env w nowIso).stderr, containsStr s "401")) ∧
    (((∃ v, (KnowledgeBase.searchKnowledgeBase env w fmt enc
            (jsOrEnv argv2 "oauth")).result = .ok v) →
        (KnowledgeBase.runMain env w fmt enc argv2).exitCode = 0 ∧
        "✅ Done" ∈ (KnowledgeBase.runMain env w fmt enc argv2).stdout ∧
        ("📚 Knowledge Base Search Results for: \"" ++ jsOrEnv argv2 "oauth" ++ "\"\n")
          ∈ (KnowledgeBase.runMain env w fmt enc argv2).stdout) ∧
      (∀ e, (KnowledgeBase.searchKnowledgeBase env w fmt enc
            (jsOrEnv argv2 "oauth")).result = .error e →
        (KnowledgeBase.runMain env w fmt enc argv2).exitCode = 1 ∧
        ∃ s ∈ (KnowledgeBase.runMain env w fmt enc argv2).stderr, containsStr s e.message) ∧
      (∀ r, w (KnowledgeBase.request env enc (jsOrEnv argv2 "oauth")) = .got r →
        r.status = 401 →
        (KnowledgeBase.runMain env w fmt enc argv2).exitCode = 1 ∧
        ∃ s ∈ (KnowledgeBase.runMain env w fmt enc argv2).stderr, containsStr s "401")) ∧
    (((∃ v, (BatchEvents.trackBatchEvents env w t0 t1 t2).result = .ok v) →
        (BatchEvents.runMain env w t0 t1 t2).exitCode = 0 ∧
        "\n✅ Done" ∈ (BatchEvents.runMain env w t0 t1 t2).stdout ∧
        "📊 Batch Events Tracked\n" ∈ (BatchEvents.runMain env w t0 t1 t2).stdout) ∧
      (∀ e, (BatchEvents.trackBatchEvents env w t0 t1 t2).result = .error e →
        (BatchEvents.runMain env w t0 t1 t2).exitCode = 1 ∧
        ∃ s ∈ (BatchEvents.runMain env w t0 t1 t2).stderr, containsStr s e.message) ∧
      (∀ r, w (BatchEvents.request env t0 t1 t2) = .got r → r.status = 401 →
        (BatchEvents.runMain env w t0 t1 t2).exitCode = 1 ∧
        ∃ s ∈ (BatchEvents.runMain env w t0 t1 t2).stderr, containsStr s "401")) ∧
    (((∃ v, (IngestEvents.ingestEvents env w IngestEvents.batchEventsList).result = .ok v) →
        (IngestEvents.runMain env w).exitCode = 0 ∧
        "\n✅ Done" ∈ (IngestEvents.runMain env w).stdout ∧
        "✅ Events ingested successfully\n" ∈ (IngestEvents.runMain env w).stdout) ∧
      (∀ e, (IngestEvents.ingestEvents env w IngestEvents.batchEventsList).result = .error e →
        (IngestEvents.runMain env w).exitCode = 1 ∧
        ∃ s ∈ (IngestEvents.runMain env w).stderr, containsStr s e.message) ∧
      (∀ r, w (IngestEvents.request env IngestEvents.batchEventsList) = .got r →
        r.status = 401 →
        (IngestEvents.runMain env w).exitCode = 1 ∧
        ∃ s ∈ (IngestEvents.runMain env w).stderr, containsStr s "401")) ∧
    (((∃ v, (GenerateInsight.generateInsight env w
            (some "usage_analysis") (some "7d") (some "code_quality")).result = .ok v) →
        (GenerateInsight.runMain env w).exitCode = 0 ∧
        "\n✅ Done" ∈ (GenerateInsight.runMain env w).stdout ∧
        "🤖 AI-Powered Insight Generated\n" ∈ (GenerateInsight.runMain env w).stdout) ∧
      (∀ e, (GenerateInsight.generateInsight env w
            (some "usage_analysis") (some "7d") (some "code_quality")).result = .error e →
        (GenerateInsight.runMain env w).exitCode = 1 ∧
        ∃ s ∈ (GenerateInsight.runMain env w).stderr, containsStr s e.message) ∧
      (∀ r, w (GenerateInsight.request env
            (some "usage_analysis") (some "7d") (some "code_quality")) = .got r →
        r.status = 401 →
        (GenerateInsight.runMain env w).exitCode = 1 ∧
        ∃ s ∈ (GenerateInsight.runMain env w).stderr, containsStr s "401")) :=
  ⟨Insights.insightsMain_spec env w fmt,
   Events.eventsMain_spec env w nowIso,
   KnowledgeBase.knowledgeBaseMain_spec env w fmt enc argv2,
   BatchEvents.batchEventsMain_spec env w t0 t1 t2,
   IngestEvents.ingestEventsMain_spec env w,
   GenerateInsight.generateInsightMain_spec env w⟩

/-- C3 witness: the 401 scenario applied concretely to the insights main
against a server that always answers 401 Unauthorized. -/
theorem claim_C3_witness :
    ((fun _ : Request => FetchResult.got ⟨401, "Unauthorized", "", none, ""⟩)
        (Insights.request ⟨none, none⟩)
      = .got ⟨401, "Unauthorized", "", none, ""⟩) ∧
    ((401 : Nat) = 401) ∧
    ((Insights.runMain ⟨none, none⟩
        (fun _ => .got ⟨401, "Unauthorized", "", none, ""⟩) (fun _ => "d")).exitCode = 1 ∧
      ∃ s ∈ (Insights.runMain ⟨none, none⟩
        (fun _ => .got ⟨401, "Unauthorized", "", none, ""⟩) (fun _ => "d")).stderr,
        containsStr s "401") :=
  ⟨rfl, rfl,
   (claim_C3 ⟨none, none⟩ (fun _ => .got ⟨401, "Unauthorized", "", none, ""⟩)
      (fun _ => "d") (fun s => s) none "n" "a" "b" "c").1.2.2
      ⟨401, "Unauthorized", "", none, ""⟩ rfl rfl⟩

end TribeApi
